import Mathlib

/-!
Verification of the ol-pejeta-ground-control coordination core against its
natural-language specification.

The Python source is shallowly embedded:
* pure decision logic becomes Lean functions over explicit state records;
* the vehicle-protocol side effects (MAVLink commands, arming, takeoff,
  mode switches) are represented by traces of issued calls plus boolean
  oracles for the confirmations the code polls for;
* the transcendental geodesy helpers (`math.sin`, `math.atan2`, ...) are
  embedded over `ℝ`; where a function only threads a distance value through
  comparisons, the distance function is taken as an explicit parameter so the
  surrounding logic stays executable;
* Python `dict` lookups with string keys and Python truthiness are modelled
  explicitly where a claim depends on them.
-/

namespace OlPejeta

/-! ## Positions and Python truthiness

`Vehicle.position()` returns the telemetry dictionary; the coordination code
reads `pos.get("latitude")` / `pos.get("longitude")`, which is `None` when no
GPS message has arrived yet.  `TelemetryPos` keeps exactly those two fields as
`Option ℚ` (absent/None versus a numeric value). -/

structure TelemetryPos where
  latitude : Option ℚ
  longitude : Option ℚ
deriving Repr, DecidableEq

/-- Python truthiness of `pos.get("latitude")` as used in
`CoordinationService._calculate_distance` (line 59): falsy when the key is
missing / `None` and also when the value is exactly `0`. -/
def latFalsy (p : TelemetryPos) : Bool :=
  match p.latitude with
  | none => true
  | some x => x == 0

/-! ## Geodesy (`CoordinationService._calculate_distance`, lines 56-75)

`math.atan2` and the haversine body are embedded over `ℝ`. -/

/-- `math.atan2 y x` (four-quadrant arctangent), case split as in the C
library function that Python wraps. -/
noncomputable def atan2 (y x : ℝ) : ℝ :=
  if 0 < x then Real.arctan (y / x)
  else if x < 0 ∧ 0 ≤ y then Real.arctan (y / x) + Real.pi
  else if x < 0 ∧ y < 0 then Real.arctan (y / x) - Real.pi
  else if x = 0 ∧ 0 < y then Real.pi / 2
  else if x = 0 ∧ y < 0 then -(Real.pi / 2)
  else 0

/-- `math.radians`. -/
noncomputable def radians (d : ℝ) : ℝ := d * Real.pi / 180

/-- `CONFIG.physical.EARTH_RADIUS_METERS`. -/
def EARTH_RADIUS_METERS : ℝ := 6371000

/-- Body of `CoordinationService._calculate_distance` after the falsy guard
(lines 62-75): haversine distance in metres. -/
noncomputable def haversineMeters (lat1 lon1 lat2 lon2 : ℝ) : ℝ :=
  let lat1r := radians lat1
  let lat2r := radians lat2
  let dlat := radians lat2 - radians lat1
  let dlon := radians lon2 - radians lon1
  let a := Real.sin (dlat / 2) ^ 2 +
    Real.cos lat1r * Real.cos lat2r * Real.sin (dlon / 2) ^ 2
  let c := 2 * atan2 (Real.sqrt a) (Real.sqrt (1 - a))
  EARTH_RADIUS_METERS * c

/-- `CoordinationService._calculate_distance` (lines 56-75).  Returns the
sentinel `-1` when either latitude is falsy (missing, `None`, or exactly `0`);
otherwise the haversine distance.  A missing longitude would raise `KeyError`
in Python; the `getD 0` defaults below are only reachable in states the guard
has already rejected or where longitude is present. -/
noncomputable def calculate_distance (pos1 pos2 : TelemetryPos) : ℝ :=
  if latFalsy pos1 || latFalsy pos2 then -1
  else
    haversineMeters (pos1.latitude.getD 0) (pos1.longitude.getD 0)
      (pos2.latitude.getD 0) (pos2.longitude.getD 0)

/-! ## Follow-engagement sequence
(`CoordinationService._initiate_follow_sequence`, lines 459-511)

The four vehicle-link calls the sequence can make are recorded in a trace;
their confirmations are boolean oracles in `FollowEnv` (the Python methods
poll shared telemetry and return `bool`). -/

/-- Vehicle-link methods invoked by the coordination loop. -/
inductive DroneCall
  | arm
  | disarm
  | setModeGuided
  | takeoff
  | goToLocation
deriving Repr, DecidableEq

/-- Events broadcast via `telemetry_manager.broadcast_event`. -/
inductive Event
  | coordinationFault
  | surveyStarted
  | surveyCompleted
  | surveyAbandonedEvent
  | followingTriggered
  | followingPaused
  | surveyButtonChanged (enabled : Bool)
deriving Repr, DecidableEq

/-- Oracles for one run of the follow-engagement sequence: `armed` is the
truthiness of `drone.position().get("armed")` (line 464); the rest are the
boolean results of `arm()`, `set_mode(GUIDED)`, `takeoff(...)` and the final
`set_mode(GUIDED)` ("FOLLOW") call. -/
structure FollowEnv where
  armed : Bool
  armOk : Bool
  guidedOk : Bool
  takeoffOk : Bool
  followOk : Bool
deriving Repr, DecidableEq

/-- Result of the follow-engagement sequence: its boolean return value, the
events it broadcast and the vehicle-link calls it issued, in order. -/
structure FollowResult where
  success : Bool
  events : List Event
  calls : List DroneCall
deriving Repr, DecidableEq

/-- Final part of `_initiate_follow_sequence` (lines 498-511): the drone is
armed (or just took off); switch to FOLLOW mode via `set_mode(GUIDED)`.  On
failure: fault event, `False`, and no disarm. -/
def finalFollowModeSet (env : FollowEnv) (sofar : List DroneCall) : FollowResult :=
  if env.followOk = false then
    { success := false
      events := [.coordinationFault]
      calls := sofar ++ [.setModeGuided] }
  else
    { success := true
      events := []
      calls := sofar ++ [.setModeGuided] }

/-- `CoordinationService._initiate_follow_sequence` (lines 459-511).  When the
drone is not armed: arm (failure → fault, abort, no disarm), set GUIDED
(failure → fault, disarm, abort), takeoff (failure → fault, disarm, abort);
then, in all surviving paths, the final FOLLOW-mode set. -/
def initiateFollowSequence (env : FollowEnv) : FollowResult :=
  if env.armed = false then
    if env.armOk = false then
      { success := false, events := [.coordinationFault], calls := [.arm] }
    else if env.guidedOk = false then
      { success := false
        events := [.coordinationFault]
        calls := [.arm, .setModeGuided, .disarm] }
    else if env.takeoffOk = false then
      { success := false
        events := [.coordinationFault]
        calls := [.arm, .setModeGuided, .takeoff, .disarm] }
    else
      finalFollowModeSet env [.arm, .setModeGuided, .takeoff]
  else
    finalFollowModeSet env []

/-! ## Coordination loop state and one tick
(`CoordinationService._coordination_loop`, lines 222-457)

`CoordState` collects the `CoordinationService` attributes the loop body
reads and writes, together with `survey_service.survey_abandoned` (the survey
service's instance flag, set by the loop at line 386). -/

structure CoordState where
  isFollowing : Bool
  surveyInitiatedByUser : Bool
  lastSurveyModeState : Bool
  surveyModeDetected : Bool
  surveyButtonEnabled : Bool
  surveyPaused : Bool
  surveyAbandoned : Bool
deriving Repr, DecidableEq

/-- Per-tick inputs read from the outside world: whether both vehicle links
are up (line 229), the two positions, `drone.is_mission_complete()`, the
follow-sequence oracles, and whether the throttled proximity check is due
(line 198, `current_time - last_check >= cooldown`). -/
structure TickInput where
  connected : Bool
  dronePos : TelemetryPos
  carPos : TelemetryPos
  missionComplete : Bool
  followEnv : FollowEnv
  proximityDue : Bool
deriving Repr, DecidableEq

/-- `CoordinationService._is_drone_surveying` (lines 182-191): requires the
drone link up, the user-initiated flag set, and the mission not complete. -/
def isDroneSurveying (linkUp initiated missionComplete : Bool) : Bool :=
  if linkUp = false then false
  else if initiated = false then false
  else !missionComplete

/-- State, events and calls produced by the remainder of a tick. -/
structure TickOut where
  state : CoordState
  events : List Event
  calls : List DroneCall
deriving Repr, DecidableEq

/-- Survey start/completion edge detection (lines 249-318): emit
`survey_started` on the rising edge; on the falling edge clear
`_survey_paused` and emit `survey_completed`; then record the new survey mode
in `_survey_mode_detected` and `_last_survey_mode_state`. -/
def surveyEdgeEvents (s : CoordState) (isSurveying : Bool) : CoordState × List Event :=
  let startEvs : List Event :=
    if isSurveying = true ∧ s.lastSurveyModeState = false then [.surveyStarted] else []
  let s1 : CoordState :=
    if s.lastSurveyModeState = true ∧ isSurveying = false then
      { s with surveyPaused := false }
    else s
  let endEvs : List Event :=
    if s.lastSurveyModeState = true ∧ isSurveying = false then [.surveyCompleted] else []
  ({ s1 with surveyModeDetected := isSurveying, lastSurveyModeState := isSurveying },
    startEvs ++ endEvs)

open Classical in
/-- `CoordinationService._check_proximity_and_update_ui` (lines 193-220),
with the wall-clock throttle abstracted into the `due` input: the survey
button is enabled exactly when `threshold ≥ distance > 0`, no survey mode is
detected, and the drone is following; a change is broadcast. -/
noncomputable def proximityCheck (s : CoordState) (due : Bool) (distance : ℝ) :
    CoordState × List Event :=
  if due = false then (s, [])
  else
    let shouldEnable : Bool :=
      decide ((5 : ℝ) ≥ distance ∧ distance > 0) &&
        !s.surveyModeDetected && s.isFollowing
    if shouldEnable ≠ s.surveyButtonEnabled then
      ({ s with surveyButtonEnabled := shouldEnable },
        [.surveyButtonChanged shouldEnable])
    else (s, [])

/-- Python truthiness of `car_pos.get("latitude")`/`("longitude")` at
lines 374-376 (both must be truthy for `go_to_location`). -/
def carPosTruthy (p : TelemetryPos) : Bool :=
  !latFalsy p &&
    (match p.longitude with
     | none => false
     | some x => !(x == 0))

open Classical in
/-- Decision section of the loop body (lines 338-452).  Not surveying: ensure
following (run the follow-engagement sequence if needed) and, while
following, command the drone to the car.  Surveying with
`distance > max_follow_distance` (500 m): set the survey service's
`survey_abandoned` flag, clear `_survey_initiated_by_user`, and re-run the
follow-engagement sequence.  Surveying within range: stop issuing follow
commands. -/
noncomputable def coordDecision (s : CoordState) (inp : TickInput) (distance : ℝ)
    (isSurveying : Bool) : TickOut :=
  if isSurveying = false then
    let r1 : TickOut :=
      if s.isFollowing = false then
        let fr := initiateFollowSequence inp.followEnv
        if fr.success = true then
          { state := { s with isFollowing := true }
            events := fr.events ++ [.followingTriggered]
            calls := fr.calls }
        else
          { state := s, events := fr.events, calls := fr.calls }
      else
        { state := s, events := [], calls := [] }
    if r1.state.isFollowing = true ∧ carPosTruthy inp.carPos = true then
      { r1 with calls := r1.calls ++ [.goToLocation] }
    else r1
  else
    if distance > 500 then
      let s1 := { s with surveyAbandoned := true, surveyInitiatedByUser := false }
      let fr := initiateFollowSequence inp.followEnv
      if fr.success = true then
        { state := { s1 with isFollowing := true }
          events := fr.events ++ [.surveyAbandonedEvent, .followingTriggered]
          calls := fr.calls }
      else
        { state := s1, events := fr.events, calls := fr.calls }
    else
      if s.isFollowing = true then
        { state := { s with isFollowing := false }
          events := [.followingPaused]
          calls := [] }
      else
        { state := s, events := [], calls := [] }

/-- Result of one pass of the loop body: still waiting for connections,
skipped for missing position data, or a full run. -/
inductive TickResult
  | waiting
  | skipped
  | ran (state : CoordState) (events : List Event) (calls : List DroneCall)
deriving Repr, DecidableEq

/-- The post-state carried by a `TickResult`; `waiting`/`skipped` passes leave
the state unchanged. -/
def stateAfter (s : CoordState) : TickResult → CoordState
  | .waiting => s
  | .skipped => s
  | .ran s' _ _ => s'

open Classical in
/-- Loop body after the distance is computed at line 237: skip the tick on
the `-1` sentinel (lines 238-244); otherwise edge events, proximity check and
the decision section, in source order. -/
noncomputable def coordTickWithDistance (s : CoordState) (inp : TickInput)
    (distance : ℝ) : TickResult :=
  if distance = -1 then .skipped
  else
    let isSurveying := isDroneSurveying true s.surveyInitiatedByUser inp.missionComplete
    let p1 := surveyEdgeEvents s isSurveying
    let p2 := proximityCheck p1.1 inp.proximityDue distance
    let out := coordDecision p2.1 inp distance isSurveying
    .ran out.state (p1.2 ++ p2.2 ++ out.events) out.calls

/-- One full pass of `_coordination_loop`'s body (lines 225-452): wait if a
vehicle link is down (line 229), else compute the distance and continue. -/
noncomputable def coordTick (s : CoordState) (inp : TickInput) : TickResult :=
  if inp.connected = false then .waiting
  else coordTickWithDistance s inp (calculate_distance inp.dronePos inp.carPos)

/-! ## Claim C9: the falsy-latitude guard and the skipped tick -/

/-- Concrete input for instantiating claim C9: drone exactly on the equator
(latitude `0`), car with a normal position. -/
def c9Input : TickInput :=
  { connected := true
    dronePos := { latitude := some 0, longitude := some 36 }
    carPos := { latitude := some 1, longitude := some 36 }
    missionComplete := false
    followEnv := { armed := true, armOk := true, guidedOk := true,
                   takeoffOk := true, followOk := true }
    proximityDue := false }

/-- Concrete coordination state for instantiating claim C9. -/
def c9State : CoordState :=
  { isFollowing := true, surveyInitiatedByUser := false,
    lastSurveyModeState := false, surveyModeDetected := false,
    surveyButtonEnabled := false, surveyPaused := false,
    surveyAbandoned := false }

/-- Claim C9: `_calculate_distance` returns the sentinel `-1` not only when a
latitude is missing/`None` but also when it equals exactly `0` (the falsy
check `not pos.get("latitude")`), so a vehicle exactly on the equator is
treated as having no position data and the coordination tick is skipped. -/
theorem claim_C9_equator_sentinel (s : CoordState) (inp : TickInput)
    (hconn : inp.connected = true)
    (hlat : inp.dronePos.latitude = none ∨ inp.dronePos.latitude = some 0) :
    calculate_distance inp.dronePos inp.carPos = -1 ∧
      coordTick s inp = .skipped := by
  have hf : latFalsy inp.dronePos = true := by
    rcases hlat with h | h <;> simp [latFalsy, h]
  have hd : calculate_distance inp.dronePos inp.carPos = -1 := by
    simp [calculate_distance, hf]
  refine ⟨hd, ?_⟩
  simp [coordTick, hconn, coordTickWithDistance, hd]

/-- Witness for claim C9 at the concrete equator input. -/
theorem claim_C9_witness :
    c9Input.connected = true ∧
      (c9Input.dronePos.latitude = none ∨ c9Input.dronePos.latitude = some 0) ∧
      (calculate_distance c9Input.dronePos c9Input.carPos = -1 ∧
        coordTick c9State c9Input = .skipped) :=
  ⟨rfl, Or.inr rfl, claim_C9_equator_sentinel c9State c9Input rfl (Or.inr rfl)⟩
/-! ## Claim C2: abandon-and-resume on distance overrun -/

/-- Claim C2 (amended): on a tick where the drone is surveying and the
computed distance exceeds the 500 m max-follow-distance, the loop sets the
survey service's `survey_abandoned` flag, clears `_survey_initiated_by_user`
and re-runs the follow-engagement sequence; `following` becomes true provided
that sequence succeeds (and is left unchanged if it fails), and on the next
tick `_is_drone_surveying` is false. -/
theorem claim_C2_abandon_on_overrun (s : CoordState) (inp : TickInput) (d : ℝ)
    (hsurv : isDroneSurveying true s.surveyInitiatedByUser inp.missionComplete = true)
    (hd : d > 500) :
    ∃ s' evs calls, coordTickWithDistance s inp d = .ran s' evs calls ∧
      s'.surveyAbandoned = true ∧
      s'.surveyInitiatedByUser = false ∧
      ((initiateFollowSequence inp.followEnv).success = true →
        s'.isFollowing = true) ∧
      ((initiateFollowSequence inp.followEnv).success = false →
        s'.isFollowing = s.isFollowing) ∧
      (∀ linkUp mc, isDroneSurveying linkUp s'.surveyInitiatedByUser mc = false) := by
  have hne : d ≠ -1 := by linarith
  rw [coordTickWithDistance, if_neg hne]
  simp only [hsurv]
  cases hdue : inp.proximityDue <;>
    cases hfr : (initiateFollowSequence inp.followEnv).success <;>
      cases hbtn : s.surveyButtonEnabled <;>
        · refine ⟨_, _, _, rfl, ?_⟩
          simp [surveyEdgeEvents, proximityCheck, coordDecision, hdue, hfr,
            hbtn, if_pos hd, isDroneSurveying]
/-- Concrete surveying state for instantiating claim C2. -/
def c2State : CoordState :=
  { isFollowing := false, surveyInitiatedByUser := true,
    lastSurveyModeState := true, surveyModeDetected := true,
    surveyButtonEnabled := false, surveyPaused := false,
    surveyAbandoned := false }

/-- Concrete tick input for the claim C2 witness: follow-engagement oracles
all succeed. -/
def c2Input : TickInput :=
  { connected := true
    dronePos := { latitude := some 1, longitude := some 36 }
    carPos := { latitude := some 2, longitude := some 36 }
    missionComplete := false
    followEnv := { armed := true, armOk := true, guidedOk := true,
                   takeoffOk := true, followOk := true }
    proximityDue := false }

/-- Witness for claim C2 at distance 600 m with a succeeding engagement. -/
theorem claim_C2_witness :
    isDroneSurveying true c2State.surveyInitiatedByUser c2Input.missionComplete = true ∧
      (600 : ℝ) > 500 ∧
      (∃ s' evs calls, coordTickWithDistance c2State c2Input 600 = .ran s' evs calls ∧
        s'.surveyAbandoned = true ∧
        s'.surveyInitiatedByUser = false ∧
        ((initiateFollowSequence c2Input.followEnv).success = true →
          s'.isFollowing = true) ∧
        ((initiateFollowSequence c2Input.followEnv).success = false →
          s'.isFollowing = c2State.isFollowing) ∧
        (∀ linkUp mc, isDroneSurveying linkUp s'.surveyInitiatedByUser mc = false)) :=
  ⟨by decide, by norm_num,
    claim_C2_abandon_on_overrun c2State c2Input 600 (by decide) (by norm_num)⟩

/-- Tick input for the claim C2 counterexample: arming fails, so the
follow-engagement sequence fails. -/
def c2FailInput : TickInput :=
  { connected := true
    dronePos := { latitude := some 1, longitude := some 36 }
    carPos := { latitude := some 2, longitude := some 36 }
    missionComplete := false
    followEnv := { armed := false, armOk := false, guidedOk := true,
                   takeoffOk := true, followOk := true }
    proximityDue := false }

/-- Counterexample to claim C2 as stated: on a surveying tick with distance
600 m > 500 m whose follow-engagement sequence fails (arming fails),
`following` does not become true. -/
theorem claim_C2_counterexample :
    isDroneSurveying true c2State.surveyInitiatedByUser c2FailInput.missionComplete = true ∧
      (stateAfter c2State (coordTickWithDistance c2State c2FailInput 600)).isFollowing
        = false := by
  refine ⟨by decide, ?_⟩
  have hne : (600 : ℝ) ≠ -1 := by norm_num
  have hgt : (600 : ℝ) > 500 := by norm_num
  rw [coordTickWithDistance, if_neg hne]
  simp [surveyEdgeEvents, proximityCheck, coordDecision, if_pos hgt,
    initiateFollowSequence, finalFollowModeSet, stateAfter, isDroneSurveying,
    c2State, c2FailInput]
/-! ## Claim C8: follow-engagement failure handling -/

/-- The edge-event phase never touches `_is_following`. -/
lemma surveyEdgeEvents_isFollowing (s : CoordState) (b : Bool) :
    (surveyEdgeEvents s b).1.isFollowing = s.isFollowing := by
  rw [surveyEdgeEvents]
  split <;> rfl

/-- The proximity-button phase never touches `_is_following`. -/
lemma proximityCheck_isFollowing (s : CoordState) (due : Bool) (d : ℝ) :
    (proximityCheck s due d).1.isFollowing = s.isFollowing := by
  rw [proximityCheck]
  dsimp only
  split
  · rfl
  · split <;> rfl

/-- The decision phase cannot set `_is_following` when the follow-engagement
sequence fails. -/
lemma coordDecision_follow_fail (s : CoordState) (inp : TickInput) (d : ℝ)
    (isSurv : Bool)
    (hff : (initiateFollowSequence inp.followEnv).success = false)
    (hnf : s.isFollowing = false) :
    (coordDecision s inp d isSurv).state.isFollowing = false := by
  cases isSurv
  · simp [coordDecision, hff, hnf]
  · by_cases hd : d > 500 <;>
      simp [coordDecision, hff, hnf, hd]
/-- Claim C8 (amended): for every run of the follow-engagement sequence,
failure of any step emits a `coordination_fault` event and the loop never
sets `following=true` on a failed run; but the drone is disarmed before
giving up exactly when the GUIDED-mode set or the takeoff step fails after a
successful arm — an arm failure or a failure of the final FOLLOW-mode set
produces no disarm. -/
theorem claim_C8_follow_failure_handling (env : FollowEnv) (s : CoordState)
    (inp : TickInput) (d : ℝ) :
    ((initiateFollowSequence env).success = false →
      Event.coordinationFault ∈ (initiateFollowSequence env).events) ∧
    ((initiateFollowSequence env).success = false →
      (DroneCall.disarm ∈ (initiateFollowSequence env).calls ↔
        env.armed = false ∧ env.armOk = true ∧
          (env.guidedOk = false ∨ env.takeoffOk = false))) ∧
    (inp.followEnv = env →
      (initiateFollowSequence env).success = false →
      s.isFollowing = false →
      (stateAfter s (coordTickWithDistance s inp d)).isFollowing = false) := by
  refine ⟨?_, ?_, ?_⟩
  · intro h
    rcases env with ⟨armed, armOk, guidedOk, takeoffOk, followOk⟩
    cases armed <;> cases armOk <;> cases guidedOk <;> cases takeoffOk <;>
      cases followOk <;> simp_all [initiateFollowSequence, finalFollowModeSet]
  · intro h
    rcases env with ⟨armed, armOk, guidedOk, takeoffOk, followOk⟩
    cases armed <;> cases armOk <;> cases guidedOk <;> cases takeoffOk <;>
      cases followOk <;> simp_all [initiateFollowSequence, finalFollowModeSet]
  · intro henv hff hnf
    subst henv
    rw [coordTickWithDistance]
    split
    · exact hnf
    · rw [stateAfter]
      have h1 := surveyEdgeEvents_isFollowing s
        (isDroneSurveying true s.surveyInitiatedByUser inp.missionComplete)
      have h2 := proximityCheck_isFollowing
        (surveyEdgeEvents s
          (isDroneSurveying true s.surveyInitiatedByUser inp.missionComplete)).1
        inp.proximityDue d
      exact coordDecision_follow_fail _ inp d _ hff (by rw [h2, h1, hnf])
/-- Follow-engagement oracles for the claim C8 witness: the GUIDED-mode set
for takeoff fails after a successful arm. -/
def c8Env : FollowEnv :=
  { armed := false, armOk := true, guidedOk := false,
    takeoffOk := true, followOk := true }

/-- Non-following coordination state for the claim C8 witness. -/
def c8State : CoordState :=
  { isFollowing := false, surveyInitiatedByUser := false,
    lastSurveyModeState := false, surveyModeDetected := false,
    surveyButtonEnabled := false, surveyPaused := false,
    surveyAbandoned := false }

/-- Tick input for the claim C8 witness, carrying `c8Env`. -/
def c8Input : TickInput :=
  { connected := true
    dronePos := { latitude := some 1, longitude := some 36 }
    carPos := { latitude := some 2, longitude := some 36 }
    missionComplete := false
    followEnv := c8Env
    proximityDue := false }

/-- Witness for claim C8: at `c8Env` the sequence fails, a fault event is
emitted, the disarm condition holds, and the tick leaves `following` false. -/
theorem claim_C8_witness :
    Event.coordinationFault ∈ (initiateFollowSequence c8Env).events ∧
      DroneCall.disarm ∈ (initiateFollowSequence c8Env).calls ∧
      (stateAfter c8State (coordTickWithDistance c8State c8Input 600)).isFollowing
        = false := by
  obtain ⟨h1, h2, h3⟩ := claim_C8_follow_failure_handling c8Env c8State c8Input 600
  exact ⟨h1 (by decide), (h2 (by decide)).mpr (by decide),
    h3 rfl (by decide) (by decide)⟩

/-- Follow-engagement oracles for the claim C8 counterexample: the drone is
already armed and the final FOLLOW-mode set fails. -/
def c8xEnv : FollowEnv :=
  { armed := true, armOk := true, guidedOk := true,
    takeoffOk := true, followOk := false }

/-- Counterexample to claim C8 as stated: when the final FOLLOW-mode set
fails on an already-armed drone, the sequence fails with a fault event but no
disarm is issued, contradicting "the loop disarms the drone before giving
up" for every step failure. -/
theorem claim_C8_counterexample :
    (initiateFollowSequence c8xEnv).success = false ∧
      Event.coordinationFault ∈ (initiateFollowSequence c8xEnv).events ∧
      DroneCall.disarm ∉ (initiateFollowSequence c8xEnv).calls := by decide
/-! ## Survey planner (`SurveyService`, survey_service.py)

Latitude/longitude pairs in the survey service are plain `{"lat", "lon"}`
dicts; `GeoPt` models them over `ℚ`.  The two transcendental geodesy helpers
are taken as explicit function parameters wherever the surrounding logic only
threads their values through comparisons:
* `dist` stands for `SurveyService.calculate_distance` (haversine, lines
  182-194);
* `mtl` stands for `SurveyService._meters_to_latlon_offset` (lines 226-233,
  divides by `111320 · cos(lat)`). -/

structure GeoPt where
  lat : ℚ
  lon : ℚ
deriving Repr, DecidableEq

/-- MAVLink command ids used by the survey planner and mission upload. -/
def MAV_CMD_NAV_WAYPOINT : ℕ := 16

def MAV_CMD_NAV_LOITER_UNLIM : ℕ := 17

def MAV_CMD_NAV_RETURN_TO_LAUNCH : ℕ := 20

def MAV_CMD_NAV_LAND : ℕ := 21

/-- Python `int()` applied to a float/rational: truncation toward zero. -/
def pyInt (q : ℚ) : ℤ := if q < 0 then ⌈q⌉ else ⌊q⌋

/-- The mission `Waypoint` model (backend/models/waypoint.py), restricted to
the fields the verified claims read (`param1..param4`, `autocontinue` and
`current` are constants in every construction the claims touch). -/
structure Waypoint where
  seq : ℕ
  lat : ℚ
  lon : ℚ
  alt : ℚ
  command : ℕ
deriving Repr, DecidableEq

/-- The two x-offsets of stripe `i`, swapped on odd stripes (boustrophedon,
lines 544-546). -/
def stripeXs (patternLength : ℚ) (i : ℕ) : List ℚ :=
  if i % 2 ≠ 0 then [patternLength / 2, -(patternLength / 2)]
  else [-(patternLength / 2), patternLength / 2]

/-- The two candidate points of stripe `i` of the constrained pattern
(lines 542-555): y-offset `-width/2 + i·swath`, x-offsets per `stripeXs`,
projected through the `_meters_to_latlon_offset` oracle `mtl`. -/
def stripePoints (mtl : ℚ → ℚ → ℚ → ℚ × ℚ) (center : GeoPt)
    (patternLength patternWidth swathWidth : ℚ) (i : ℕ) : List GeoPt :=
  let yOffset := -(patternWidth / 2) + i * swathWidth
  (stripeXs patternLength i).map fun xOffset =>
    let dl := mtl xOffset yOffset center.lat
    { lat := center.lat + dl.1, lon := center.lon + dl.2 }

/-- Loop body of `_generate_constrained_lawnmower_waypoints` (lines 540-576)
with the pattern dimensions as parameters: `int(pattern_width/swath_width)+1`
stripes of two candidate points each; a candidate is emitted only if its
verified distance from the center is `≤ max_distance` — points exceeding the
bound are dropped (lines 557-574). -/
def generateConstrainedLawnmowerWaypoints
    (dist : GeoPt → GeoPt → ℚ) (mtl : ℚ → ℚ → ℚ → ℚ × ℚ)
    (center : GeoPt) (maxDistance patternLength patternWidth swathWidth : ℚ) :
    List GeoPt :=
  let numStripes := pyInt (patternWidth / swathWidth)
  (List.range (numStripes + 1).toNat).flatMap fun i =>
    (stripePoints mtl center patternLength patternWidth swathWidth i).filter
      fun pt => dist center pt ≤ maxDistance

/-- `return_home_position` as read by `execute_proximity_survey`
(lines 443-450, 487-491): the drone's telemetry dict, of which the latitude,
longitude and relative-altitude keys are read. -/
structure ReturnHomePos where
  latitude : Option ℚ
  longitude : Option ℚ
  relativeAltitude : Option ℚ
deriving Repr, DecidableEq

/-- Python truthiness of `return_home_position.get("latitude")`
(line 444). -/
def retHomeLatFalsy (r : ReturnHomePos) : Bool :=
  match r.latitude with
  | none => true
  | some x => x == 0

/-- Python `a or b` for the terminal waypoint's altitude (lines 490-491):
`return_home_position.get("relative_altitude") or center_waypoint["alt"]`. -/
def pyOrAlt (relAlt : Option ℚ) (centerAlt : ℚ) : ℚ :=
  match relAlt with
  | none => centerAlt
  | some a => if a = 0 then centerAlt else a

/-- Mission built by `execute_proximity_survey` (lines 464-498): one
`MAV_CMD_NAV_WAYPOINT` per generated scan point at the center's altitude,
then a terminal `MAV_CMD_NAV_WAYPOINT` at the pre-survey
`return_home_position` — appended unconditionally, with no distance
verification. -/
def proximityMissionWaypoints (scan : List GeoPt) (centerAlt : ℚ)
    (ret : ReturnHomePos) : List Waypoint :=
  (scan.enum.map fun p =>
    { seq := p.1, lat := p.2.lat, lon := p.2.lon, alt := centerAlt,
      command := MAV_CMD_NAV_WAYPOINT }) ++
  [{ seq := scan.length
     lat := ret.latitude.getD 0
     lon := ret.longitude.getD 0
     alt := pyOrAlt ret.relativeAltitude centerAlt
     command := MAV_CMD_NAV_WAYPOINT }]

/-! ## Claim C1: survey execution monitoring -/

/-- Python return values of `execute_proximity_survey`: an explicit `bool`,
or `None` from falling off the end of the function body. -/
inductive PyRet
  | pyBool (b : Bool)
  | pyNoneRet
deriving Repr, DecidableEq

/-- Oracles for one call of `execute_proximity_survey`: vehicle
availability (line 441), the drone position used as return point, and the
boolean results of `upload_mission`, `set_mode(AUTO)` and
`start_mission`. -/
structure ProxSurveyEnv where
  droneAvailable : Bool
  carAvailable : Bool
  returnHome : ReturnHomePos
  uploadOk : Bool
  setAutoOk : Bool
  startOk : Bool
deriving Repr, DecidableEq

/-- `SurveyService.execute_proximity_survey` (lines 426-517), control flow
and return value.  Every guard failure returns `False`; after
`start_mission()` succeeds the function body ends (lines 515-517): there is
no monitoring loop, no completion/drift/timeout checks (the `tolerance` and
`timeout` parameters and the `survey_result` local are never used), and the
function returns Python `None` despite its `-> bool` annotation. -/
def executeProximitySurvey (env : ProxSurveyEnv) : PyRet :=
  if env.droneAvailable = false ∨ env.carAvailable = false then .pyBool false
  else if retHomeLatFalsy env.returnHome = true then .pyBool false
  else if env.uploadOk = false then .pyBool false
  else if env.setAutoOk = false then .pyBool false
  else if env.startOk = false then .pyBool false
  else .pyNoneRet

/-- Claim C1 (code evaluated at the failing input): whenever both vehicles
are available, the return point has a truthy latitude, and upload, AUTO-mode
switch and mission start all succeed, `execute_proximity_survey` returns
Python `None` — it performs no 2 s polling and reports no terminal outcome
(success, abandonment or timeout), contradicting the claimed monitor. -/
theorem claim_C1_no_monitor_loop (env : ProxSurveyEnv)
    (hdr : env.droneAvailable = true) (hcar : env.carAvailable = true)
    (hlat : retHomeLatFalsy env.returnHome = false)
    (hup : env.uploadOk = true) (hauto : env.setAutoOk = true)
    (hstart : env.startOk = true) :
    executeProximitySurvey env = .pyNoneRet ∧
      ∀ b, executeProximitySurvey env ≠ .pyBool b := by
  have h : executeProximitySurvey env = .pyNoneRet := by
    simp [executeProximitySurvey, hdr, hcar, hlat, hup, hauto, hstart]
  exact ⟨h, by simp [h]⟩

/-- Concrete oracle values for the claim C1 witness: a fully successful
survey start. -/
def c1Env : ProxSurveyEnv :=
  { droneAvailable := true
    carAvailable := true
    returnHome := { latitude := some 1, longitude := some 36,
                    relativeAltitude := some 30 }
    uploadOk := true
    setAutoOk := true
    startOk := true }

/-- Witness for claim C1 at the concrete successful-start input. -/
theorem claim_C1_witness :
    c1Env.droneAvailable = true ∧ c1Env.carAvailable = true ∧
      retHomeLatFalsy c1Env.returnHome = false ∧
      c1Env.uploadOk = true ∧ c1Env.setAutoOk = true ∧ c1Env.startOk = true ∧
      (executeProximitySurvey c1Env = .pyNoneRet ∧
        ∀ b, executeProximitySurvey c1Env ≠ .pyBool b) :=
  ⟨rfl, rfl, rfl, rfl, rfl, rfl,
    claim_C1_no_monitor_loop c1Env rfl rfl rfl rfl rfl rfl⟩
/-! ## Claim C7: the constrained generator's distance guarantee -/

/-- `side_length = max_distance * math.sqrt(2) * 0.99` (line 529). -/
noncomputable def constrainedSideLength (maxDistance : ℝ) : ℝ :=
  maxDistance * Real.sqrt 2 * 0.99

/-- `pattern_length = min(CONFIG.survey.PATTERN_LENGTH, side_length)`
(line 532), with `PATTERN_LENGTH = 1000`. -/
noncomputable def constrainedPatternLength (maxDistance : ℝ) : ℝ :=
  min 1000 (constrainedSideLength maxDistance)

/-- `pattern_width = min(CONFIG.survey.MAX_RADIUS * 2, side_length)`
(line 533), with `MAX_RADIUS = 500`. -/
noncomputable def constrainedPatternWidth (maxDistance : ℝ) : ℝ :=
  min (500 * 2) (constrainedSideLength maxDistance)

/-- Claim C7 (amended): every waypoint the constrained generator emits has
verified distance from the center `≤ maxDistance` — whatever values the
distance function produces, since points exceeding the bound are dropped,
not clamped; and the terminal waypoint of the uploaded proximity mission is
placed at the pre-survey return position unconditionally, with no distance
verification applied to it.  (The inscribed square itself is clipped to the
configured pattern limits, see the counterexample.) -/
theorem claim_C7_constrained_generator
    (dist : GeoPt → GeoPt → ℚ) (mtl : ℚ → ℚ → ℚ → ℚ × ℚ)
    (center : GeoPt) (maxDistance patternLength patternWidth swathWidth : ℚ)
    (pt : GeoPt)
    (hpt : pt ∈ generateConstrainedLawnmowerWaypoints dist mtl center
      maxDistance patternLength patternWidth swathWidth) :
    dist center pt ≤ maxDistance ∧
      ∀ (scan : List GeoPt) (centerAlt : ℚ) (ret : ReturnHomePos),
        (proximityMissionWaypoints scan centerAlt ret).getLast? =
          some { seq := scan.length
                 lat := ret.latitude.getD 0
                 lon := ret.longitude.getD 0
                 alt := pyOrAlt ret.relativeAltitude centerAlt
                 command := MAV_CMD_NAV_WAYPOINT } := by
  constructor
  · simp only [generateConstrainedLawnmowerWaypoints, List.mem_flatMap,
      List.mem_filter, decide_eq_true_eq] at hpt
    obtain ⟨i, _, _, h⟩ := hpt
    exact h
  · intro scan centerAlt ret
    simp [proximityMissionWaypoints]

/-- A distance oracle that is identically zero, for the claim C7 witness. -/
def c7DistZero : GeoPt → GeoPt → ℚ := fun _ _ => 0

/-- An offset oracle that is identically zero, for the claim C7 witness. -/
def c7MtlZero : ℚ → ℚ → ℚ → ℚ × ℚ := fun _ _ _ => (0, 0)

/-- Survey center for the claim C7 witness. -/
def c7Center : GeoPt := { lat := 0, lon := 36 }

/-- Witness for claim C7: with zero oracles and a degenerate 0 m pattern, the
generator emits the center point, whose distance bound holds. -/
theorem claim_C7_witness :
    c7Center ∈ generateConstrainedLawnmowerWaypoints c7DistZero c7MtlZero
      c7Center 500 0 0 50 ∧
    (c7DistZero c7Center c7Center ≤ 500 ∧
      ∀ (scan : List GeoPt) (centerAlt : ℚ) (ret : ReturnHomePos),
        (proximityMissionWaypoints scan centerAlt ret).getLast? =
          some { seq := scan.length
                 lat := ret.latitude.getD 0
                 lon := ret.longitude.getD 0
                 alt := pyOrAlt ret.relativeAltitude centerAlt
                 command := MAV_CMD_NAV_WAYPOINT }) := by
  have hmem : c7Center ∈ generateConstrainedLawnmowerWaypoints c7DistZero
      c7MtlZero c7Center 500 0 0 50 := by
    simp [generateConstrainedLawnmowerWaypoints, pyInt, stripePoints, stripeXs,
      c7DistZero, c7MtlZero, c7Center]
  exact ⟨hmem,
    claim_C7_constrained_generator c7DistZero c7MtlZero c7Center 500 0 0 50
      c7Center hmem⟩

/-- Counterexample to claim C7 as stated: for `maxRadius = 10000` m the
pattern length is clipped to the configured 1000 m limit, so the generator
does not inscribe a square of side `maxRadius·√2·0.99` (≈ 13859 m). -/
theorem claim_C7_counterexample :
    constrainedPatternLength 10000 = 1000 ∧
      constrainedPatternLength 10000 ≠ constrainedSideLength 10000 := by
  have hs : (1 : ℝ) < Real.sqrt 2 := by
    have h := Real.sqrt_lt_sqrt (by norm_num : (0:ℝ) ≤ 1) (by norm_num : (1:ℝ) < 2)
    simpa using h
  have hside : (1000 : ℝ) < constrainedSideLength 10000 := by
    rw [constrainedSideLength]
    nlinarith
  constructor
  · rw [constrainedPatternLength, min_eq_left hside.le]
  · rw [constrainedPatternLength, min_eq_left hside.le]
    exact ne_of_lt hside
/-! ## Python dictionaries with string keys

Used for the telemetry snapshot (`Vehicle._get_initial_telemetry_dict`,
lines 62-93) and its readers.  Values are the Python scalars the snapshot
holds. -/

inductive PyVal
  | pyNoneV
  | num (q : ℚ)
  | boolV (b : Bool)
  | emptyDictV
  | emptyListV
deriving Repr, DecidableEq

/-- Association-list model of a Python `dict` with string keys (insertion
order preserved, as in CPython). -/
abbrev PyDict := List (String × PyVal)

/-- `d.get(k, dflt)`. -/
def pyDictGet (m : PyDict) (k : String) (dflt : PyVal) : PyVal :=
  match m.find? (fun kv => kv.1 == k) with
  | some kv => kv.2
  | none => dflt

/-- `d[k] = v`: replace in place if the key exists, else append. -/
def pyDictSet : PyDict → String → PyVal → PyDict
  | [], k, v => [(k, v)]
  | kv :: rest, k, v =>
      if kv.1 == k then (k, v) :: rest else kv :: pyDictSet rest k v

/-- Python truthiness of a snapshot value (for `.get("armed", False)`). -/
def pyTruthy : PyVal → Bool
  | .pyNoneV => false
  | .num q => !(q == 0)
  | .boolV b => b
  | .emptyDictV => false
  | .emptyListV => false

/-- `Vehicle._get_initial_telemetry_dict` (lines 62-93): every telemetry key
with its initial value; `vehicle_id` is the one non-constant entry. -/
def initialTelemetryDict (vehicleId : ℚ) : PyDict :=
  [("latitude", .pyNoneV),
   ("longitude", .pyNoneV),
   ("altitude_msl", .pyNoneV),
   ("relative_altitude", .pyNoneV),
   ("vx", .pyNoneV),
   ("vy", .pyNoneV),
   ("vz", .pyNoneV),
   ("heading", .pyNoneV),
   ("ground_speed", .pyNoneV),
   ("battery_voltage", .pyNoneV),
   ("battery_remaining_percentage", .pyNoneV),
   ("current_mission_wp_seq", .pyNoneV),
   ("distance_to_mission_wp", .pyNoneV),
   ("next_mission_wp_seq", .pyNoneV),
   ("mission_progress_percentage", .pyNoneV),
   ("mission_total_waypoints", .num 0),
   ("mission_waypoints", .emptyDictV),
   ("visited_waypoints", .emptyListV),
   ("heartbeat_timestamp", .pyNoneV),
   ("flight_mode", .pyNoneV),
   ("system_status", .pyNoneV),
   ("armed", .pyNoneV),
   ("guided_enabled", .pyNoneV),
   ("custom_mode", .pyNoneV),
   ("mavlink_version", .pyNoneV),
   ("vehicle_id", .num vehicleId)]

/-! ## Claim C5: resume_survey's relaunch decision -/

/-- `current_altitude < altitude_threshold` (line 135), on the Python value
read from the dict.  A non-numeric value would raise `TypeError` in Python;
in the modelled paths the value is always numeric. -/
def pyNumLt (v : PyVal) (q : ℚ) : Bool :=
  match v with
  | .num x => decide (x < q)
  | _ => false

/-- The reads and branch decisions of `SurveyService.resume_survey`
(lines 116-145): `is_armed = position_data.get("armed", False)` (line 117),
`current_altitude = position_data.get("relative_alt", 0)` (line 118 — note
the key, which differs from the snapshot's `"relative_altitude"`), arm when
not armed (line 124), take off when `current_altitude < 2.0` (lines
134-135). -/
structure ResumeDecision where
  isArmed : Bool
  currentAltitude : PyVal
  willArm : Bool
  willTakeoff : Bool
deriving Repr, DecidableEq

/-- The decision part of `resume_survey` evaluated on the drone's telemetry
dict. -/
def resumeSurveyDecision (telem : PyDict) : ResumeDecision :=
  let isArmed := pyTruthy (pyDictGet telem "armed" (.boolV false))
  let currentAltitude := pyDictGet telem "relative_alt" (.num 0)
  { isArmed := isArmed
    currentAltitude := currentAltitude
    willArm := !isArmed
    willTakeoff := pyNumLt currentAltitude 2 }

/-- Claim C5 (code evaluated at the failing inputs): whatever relative
altitude the telemetry snapshot holds under its actual key
`"relative_altitude"`, `resume_survey` reads the non-existent key
`"relative_alt"`, obtains the default `0`, and therefore always takes the
re-takeoff branch — the "already at sufficient altitude, skipping takeoff"
branch (lines 142-145) is unreachable, contradicting the claim that the
relaunch is skipped above the altitude threshold. -/
theorem claim_C5_resume_always_relaunches (vehicleId alt : ℚ) (armed : Bool) :
    pyDictGet (pyDictSet (pyDictSet (initialTelemetryDict vehicleId)
        "relative_altitude" (.num alt)) "armed" (.boolV armed))
        "relative_altitude" (.num 0) = .num alt ∧
    (resumeSurveyDecision (pyDictSet (pyDictSet (initialTelemetryDict vehicleId)
        "relative_altitude" (.num alt)) "armed" (.boolV armed))).currentAltitude
      = .num 0 ∧
    (resumeSurveyDecision (pyDictSet (pyDictSet (initialTelemetryDict vehicleId)
        "relative_altitude" (.num alt)) "armed" (.boolV armed))).willTakeoff
      = true ∧
    (resumeSurveyDecision (pyDictSet (pyDictSet (initialTelemetryDict vehicleId)
        "relative_altitude" (.num alt)) "armed" (.boolV armed))).willArm
      = !armed := by
  refine ⟨?_, ?_, ?_, ?_⟩ <;>
    simp [initialTelemetryDict, pyDictSet, pyDictGet, resumeSurveyDecision,
      pyTruthy, pyNumLt]
/-! ## Claim C10: telemetry reads are pure and return a fresh copy

Python dict aliasing is modelled with a micro-heap of dict cells: the
vehicle's `last_telemetry` attribute is an address, `.copy()` allocates a
fresh address with the same top-level entries, and a caller's top-level
assignment mutates only the addressed cell. -/

/-- Update (or allocate) the cell at address `a`. -/
def setCell : List (ℕ × PyDict) → ℕ → PyDict → List (ℕ × PyDict)
  | [], a, d => [(a, d)]
  | c :: rest, a, d =>
      if c.1 == a then (a, d) :: rest else c :: setCell rest a d

/-- A heap of Python dict objects plus the next fresh address. -/
structure DictHeap where
  cells : List (ℕ × PyDict)
  fresh : ℕ
deriving Repr, DecidableEq

/-- Dereference an address. -/
def heapGet (h : DictHeap) (a : ℕ) : Option PyDict :=
  (h.cells.find? (fun c => c.1 == a)).map (fun c => c.2)

/-- Every allocated address is below the fresh-address counter. -/
def HeapWF (h : DictHeap) : Prop :=
  ∀ c ∈ h.cells, c.1 < h.fresh

/-- `d.copy()`: allocate a fresh cell holding the same top-level entries as
the cell at `a` and return its address. -/
def pyDictCopy (h : DictHeap) (a : ℕ) : DictHeap × ℕ :=
  ({ cells := setCell h.cells h.fresh ((heapGet h a).getD [])
     fresh := h.fresh + 1 }, h.fresh)

/-- `ret[k] = v` performed by a caller on the dict at address `a`. -/
def heapDictSetKey (h : DictHeap) (a : ℕ) (k : String) (v : PyVal) : DictHeap :=
  { h with cells := setCell h.cells a (pyDictSet ((heapGet h a).getD []) k v) }

/-- The `Vehicle` attributes `get_current_telemetry` can reach: the address
of the live telemetry dict. -/
structure VehicleObj where
  lastTelemetryAddr : ℕ
deriving Repr, DecidableEq

/-- `Vehicle.get_current_telemetry` (lines 823-826): under the lock, return
`self.last_telemetry.copy()`.  The vehicle object is returned unchanged and
no vehicle-link call is issued. -/
def getCurrentTelemetry (v : VehicleObj) (h : DictHeap) :
    VehicleObj × DictHeap × ℕ × List DroneCall :=
  let hc := pyDictCopy h v.lastTelemetryAddr
  (v, hc.1, hc.2, [])

/-- `Vehicle.position` (lines 998-1007): a wrapper around
`get_current_telemetry`. -/
def vehiclePosition (v : VehicleObj) (h : DictHeap) :
    VehicleObj × DictHeap × ℕ × List DroneCall :=
  getCurrentTelemetry v h

/-- Lookups at a different address are unchanged by `setCell`. -/
lemma find_setCell_ne (cs : List (ℕ × PyDict)) (a b : ℕ) (d : PyDict)
    (hab : a ≠ b) :
    (setCell cs b d).find? (fun c => c.1 == a) = cs.find? (fun c => c.1 == a) := by
  have hba : (b == a) = false := beq_eq_false_iff_ne.mpr (Ne.symm hab)
  induction cs with
  | nil =>
      simp [setCell, List.find?, hba]
  | cons c rest ih =>
      by_cases hc : c.1 = b
      · simp [setCell, hc, List.find?, hba]
      · simp only [setCell, beq_iff_eq, hc, if_false]
        by_cases hca : c.1 = a
        · simp [List.find?, hca]
        · simp [List.find?, hca, ih]

/-- Lookup at the written address after `setCell`. -/
lemma find_setCell_eq (cs : List (ℕ × PyDict)) (a : ℕ) (d : PyDict) :
    (setCell cs a d).find? (fun c => c.1 == a) = some (a, d) := by
  induction cs with
  | nil => simp [setCell, List.find?]
  | cons c rest ih =>
      by_cases hc : c.1 = a
      · simp [setCell, hc, List.find?]
      · simp [setCell, hc, List.find?, ih]

/-- A well-formed heap has nothing at the fresh address. -/
lemma heapGet_fresh (h : DictHeap) (hwf : HeapWF h) : heapGet h h.fresh = none := by
  rw [heapGet]
  cases hf : h.cells.find? (fun c => c.1 == h.fresh) with
  | none => rfl
  | some c =>
      have hmem := List.mem_of_find?_eq_some hf
      have := hwf c hmem
      have heq : c.1 = h.fresh := by
        have := List.find?_some hf
        simpa using this
      omega

/-- Claim C10: `position()`/`get_current_telemetry()` are pure reads — they
issue no vehicle-link commands, leave the vehicle object and its live
telemetry cell unchanged, and return a fresh copy of the snapshot taken
under the lock, so a caller's top-level mutation of the returned dict never
alters the vehicle's internal telemetry. -/
theorem claim_C10_position_pure_copy (v : VehicleObj) (h : DictHeap)
    (d : PyDict) (hwf : HeapWF h)
    (halloc : heapGet h v.lastTelemetryAddr = some d) :
    (vehiclePosition v h).1 = v ∧
    (vehiclePosition v h).2.2.2 = [] ∧
    heapGet (vehiclePosition v h).2.1 v.lastTelemetryAddr = some d ∧
    heapGet (vehiclePosition v h).2.1 (vehiclePosition v h).2.2.1 = some d ∧
    (vehiclePosition v h).2.2.1 ≠ v.lastTelemetryAddr ∧
    ∀ (k : String) (val : PyVal),
      heapGet (heapDictSetKey (vehiclePosition v h).2.1
          (vehiclePosition v h).2.2.1 k val) v.lastTelemetryAddr = some d := by
  have haddr : v.lastTelemetryAddr ≠ h.fresh := by
    intro he
    rw [he, heapGet_fresh h hwf] at halloc
    exact Option.noConfusion halloc
  refine ⟨rfl, rfl, ?_, ?_, ?_, ?_⟩
  · rw [vehiclePosition, getCurrentTelemetry]
    simp only [pyDictCopy, heapGet]
    rw [find_setCell_ne _ _ _ _ haddr]
    simpa [heapGet] using halloc
  · rw [vehiclePosition, getCurrentTelemetry]
    simp only [pyDictCopy, heapGet]
    rw [find_setCell_eq]
    have h2 : (h.cells.find? (fun c => c.1 == v.lastTelemetryAddr)).map
        (fun c => c.2) = some d := halloc
    simp [h2]
  · exact fun he => haddr he.symm
  · intro k val
    rw [vehiclePosition, getCurrentTelemetry]
    simp only [pyDictCopy, heapDictSetKey, heapGet]
    rw [find_setCell_ne _ _ _ _ haddr, find_setCell_ne _ _ _ _ haddr]
    simpa [heapGet] using halloc

/-- Vehicle object for the claim C10 witness. -/
def c10Vehicle : VehicleObj := { lastTelemetryAddr := 0 }

/-- Heap for the claim C10 witness: one allocated telemetry dict. -/
def c10Heap : DictHeap :=
  { cells := [(0, [("latitude", .num 1), ("armed", .boolV true)])], fresh := 1 }

/-- Witness for claim C10 at a concrete one-cell heap. -/
theorem claim_C10_witness :
    HeapWF c10Heap ∧
    heapGet c10Heap c10Vehicle.lastTelemetryAddr =
      some [("latitude", .num 1), ("armed", .boolV true)] ∧
    ((vehiclePosition c10Vehicle c10Heap).1 = c10Vehicle ∧
      (vehiclePosition c10Vehicle c10Heap).2.2.2 = [] ∧
      heapGet (vehiclePosition c10Vehicle c10Heap).2.1 c10Vehicle.lastTelemetryAddr =
        some [("latitude", .num 1), ("armed", .boolV true)] ∧
      heapGet (vehiclePosition c10Vehicle c10Heap).2.1
          (vehiclePosition c10Vehicle c10Heap).2.2.1 =
        some [("latitude", .num 1), ("armed", .boolV true)] ∧
      (vehiclePosition c10Vehicle c10Heap).2.2.1 ≠ c10Vehicle.lastTelemetryAddr ∧
      ∀ (k : String) (val : PyVal),
        heapGet (heapDictSetKey (vehiclePosition c10Vehicle c10Heap).2.1
            (vehiclePosition c10Vehicle c10Heap).2.2.1 k val)
            c10Vehicle.lastTelemetryAddr =
          some [("latitude", .num 1), ("armed", .boolV true)]) :=
  ⟨by intro c hc; simp [c10Heap] at hc; subst hc; decide, rfl,
    claim_C10_position_pure_copy c10Vehicle c10Heap _
      (by intro c hc; simp [c10Heap] at hc; subst hc; decide) rfl⟩
/-! ## Vehicle mission state
(`Vehicle`, backend/models/vehicle.py)

`mission_waypoints` is a Python dict `seq ↦ waypoint-data`; it is modelled as
an association list of `(seq, coordinates)` pairs (the altitude entry is
never read by the verified claims).  `visited_waypoints` is a Python set.
`_waypoint_visit_candidates` maps a waypoint to the time its candidate timer
started.  The vehicle's haversine helper `_calculate_distance` (lines
975-994) is a parameter `dist`, as for the survey planner. -/

/-- `self.waypoint_visit_threshold = 3.0` metres (line 45). -/
def WAYPOINT_VISIT_THRESHOLD : ℚ := 3

/-- `self.waypoint_confirmation_delay = 2.0` seconds (line 46). -/
def WAYPOINT_CONFIRMATION_DELAY : ℚ := 2

structure VehicleMission where
  missionWaypoints : List (ℕ × GeoPt)
  visitedWaypoints : Finset ℕ
  currentWaypointSeq : Option ℕ
  nextWaypointSeq : Option ℕ
  visitCandidates : List (ℕ × ℚ)
deriving DecidableEq

/-- The `Vehicle.__init__` mission fields (lines 40-49). -/
def initialVehicleMission : VehicleMission :=
  { missionWaypoints := []
    visitedWaypoints := ∅
    currentWaypointSeq := none
    nextWaypointSeq := none
    visitCandidates := [] }

/-- `sorted(self.mission_waypoints.keys())`. -/
def sortedKeys (wps : List (ℕ × GeoPt)) : List ℕ :=
  (wps.map Prod.fst).mergeSort (fun a b => decide (a ≤ b))

/-- `Vehicle._update_current_next_waypoints` (lines 877-905): no-op on an
empty mission; otherwise current := first unvisited key in ascending order
(or the last key when all are visited), next := first unvisited key greater
than current. -/
def updateCurrentNextWaypoints (s : VehicleMission) : VehicleMission :=
  if s.missionWaypoints = [] then s
  else
    let sorted := sortedKeys s.missionWaypoints
    let firstUnvisited := sorted.find? (fun k => !(decide (k ∈ s.visitedWaypoints)))
    let currentWp :=
      match firstUnvisited with
      | some c => c
      | none => sorted.getLast?.getD 0
    let nextWp := sorted.find?
      (fun k => decide (currentWp < k) && !(decide (k ∈ s.visitedWaypoints)))
    { s with currentWaypointSeq := some currentWp, nextWaypointSeq := nextWp }

/-- Marking one waypoint visited (lines 935-936): insert into the visited
set, then recompute current/next. -/
def markWaypointVisited (s : VehicleMission) (wp : ℕ) : VehicleMission :=
  updateCurrentNextWaypoints
    { s with visitedWaypoints := insert wp s.visitedWaypoints }

/-- `connect_vehicle`'s mission initialisation (lines 164-170): fetch the
mission waypoint map (replacing the previous one; the visited set persists),
then recompute current/next.  Waypoint persistence is disabled (no site
name), as in a fresh `Vehicle`. -/
def connectUpdate (s : VehicleMission) (wps : List (ℕ × GeoPt)) : VehicleMission :=
  updateCurrentNextWaypoints { s with missionWaypoints := wps }

/-- `MISSION_CURRENT` handler in `_update_telemetry_state` (lines 772-786):
current := the autopilot-reported sequence, unconditionally; next := the
first key greater than it (when the mission map is nonempty). -/
def missionCurrentUpdate (s : VehicleMission) (seq : ℕ) : VehicleMission :=
  let s1 := { s with currentWaypointSeq := some seq }
  if s.missionWaypoints = [] then s1
  else
    let sorted := sortedKeys s.missionWaypoints
    let nextWp := sorted.find? (fun k => decide (seq < k))
    { s1 with nextWaypointSeq := nextWp }

/-- `_waypoint_visit_candidates[wp]` lookup. -/
def candLookup : List (ℕ × ℚ) → ℕ → Option ℚ
  | [], _ => none
  | c :: rest, wp => if c.1 = wp then some c.2 else candLookup rest wp

/-- `_waypoint_visit_candidates[wp] = t`. -/
def candSet : List (ℕ × ℚ) → ℕ → ℚ → List (ℕ × ℚ)
  | [], wp, t => [(wp, t)]
  | c :: rest, wp, t =>
      if c.1 = wp then (wp, t) :: rest else c :: candSet rest wp t

/-- `del _waypoint_visit_candidates[wp]` (a no-op when absent, matching the
guarded `del` at lines 944-950). -/
def candErase : List (ℕ × ℚ) → ℕ → List (ℕ × ℚ)
  | [], _ => []
  | c :: rest, wp =>
      if c.1 = wp then candErase rest wp else c :: candErase rest wp

/-- Inner-loop body of `Vehicle._check_waypoint_visits` for one mission
waypoint (lines 917-950): skip if visited; within the 3 m threshold start
the candidate timer, or mark visited once the timer has run for at least the
2 s confirmation delay (then drop the timer); outside the threshold drop the
timer. -/
def checkOneWaypoint (dist : GeoPt → GeoPt → ℚ) (pos : GeoPt) (t : ℚ)
    (s : VehicleMission) (wpc : ℕ × GeoPt) : VehicleMission :=
  if wpc.1 ∈ s.visitedWaypoints then s
  else
    let d := dist pos wpc.2
    if d ≤ WAYPOINT_VISIT_THRESHOLD then
      match candLookup s.visitCandidates wpc.1 with
      | none => { s with visitCandidates := candSet s.visitCandidates wpc.1 t }
      | some t0 =>
          if t - t0 ≥ WAYPOINT_CONFIRMATION_DELAY then
            let s1 := markWaypointVisited s wpc.1
            { s1 with visitCandidates := candErase s1.visitCandidates wpc.1 }
          else s
    else
      { s with visitCandidates := candErase s.visitCandidates wpc.1 }

/-- `Vehicle._check_waypoint_visits` (lines 907-950), reached from every
`GLOBAL_POSITION_INT` update: no-op without a position fix or without
mission waypoints; otherwise fold the per-waypoint check over the mission
waypoint items. -/
def checkWaypointVisits (dist : GeoPt → GeoPt → ℚ) (s : VehicleMission)
    (t : ℚ) (pos : Option GeoPt) : VehicleMission :=
  match pos with
  | none => s
  | some p =>
      if s.missionWaypoints = [] then s
      else s.missionWaypoints.foldl (checkOneWaypoint dist p t) s

/-- Specification-side definition of the claimed `currentWaypointSeq` value
(spec §3 and §8): the lowest unvisited sequence, or the highest sequence when
every waypoint is visited. -/
def specCurrentSeq (keys : List ℕ) (visited : Finset ℕ) : Option ℕ :=
  match (keys.filter (fun k => !(decide (k ∈ visited)))).min? with
  | some m => some m
  | none => keys.max?
/-! ### Sorted-list facts used to characterise `_update_current_next_waypoints` -/

lemma nat_min?_eq_some_iff {a : ℕ} {xs : List ℕ} :
    xs.min? = some a ↔ a ∈ xs ∧ ∀ b ∈ xs, a ≤ b :=
  List.min?_eq_some_iff (fun a => le_refl a) (fun a b => min_choice a b)
    (fun _ _ _ => le_min_iff)

lemma nat_max?_eq_some_iff {a : ℕ} {xs : List ℕ} :
    xs.max? = some a ↔ a ∈ xs ∧ ∀ b ∈ xs, b ≤ a :=
  List.max?_eq_some_iff (fun a => le_refl a) (fun a b => max_choice a b)
    (fun _ _ _ => max_le_iff)

lemma perm_min?_eq {l l' : List ℕ} (h : l.Perm l') : l.min? = l'.min? := by
  cases hm : l'.min? with
  | none =>
      rw [List.min?_eq_none_iff] at hm
      subst hm
      rw [List.min?_eq_none_iff]
      exact h.eq_nil
  | some m =>
      rw [nat_min?_eq_some_iff] at hm ⊢
      exact ⟨h.mem_iff.mpr hm.1, fun b hb => hm.2 b (h.mem_iff.mp hb)⟩

lemma perm_max?_eq {l l' : List ℕ} (h : l.Perm l') : l.max? = l'.max? := by
  cases hm : l'.max? with
  | none =>
      rw [List.max?_eq_none_iff] at hm
      subst hm
      rw [List.max?_eq_none_iff]
      exact h.eq_nil
  | some m =>
      rw [nat_max?_eq_some_iff] at hm ⊢
      exact ⟨h.mem_iff.mpr hm.1, fun b hb => hm.2 b (h.mem_iff.mp hb)⟩

/-- On an ascending list, the first element satisfying `p` is the least
element satisfying `p`. -/
lemma sorted_find?_eq_min?_filter (p : ℕ → Bool) :
    ∀ (l : List ℕ), List.Pairwise (fun a b => a ≤ b) l →
      l.find? p = (l.filter p).min?
  | [], _ => rfl
  | a :: t, hs => by
      obtain ⟨ha, ht⟩ := List.pairwise_cons.mp hs
      by_cases hp : p a = true
      · rw [List.find?_cons_of_pos _ hp, List.filter_cons_of_pos hp, List.min?_cons]
        cases hm : (t.filter p).min? with
        | none => rfl
        | some m =>
            have hmem : m ∈ t.filter p :=
              List.min?_mem (fun a b => min_choice a b) hm
            have ham : a ≤ m := ha m (List.mem_of_mem_filter hmem)
            simp [min_eq_left ham]
      · rw [List.find?_cons_of_neg _ hp, List.filter_cons_of_neg hp,
          sorted_find?_eq_min?_filter p t ht]

/-- On an ascending list, the last element is the maximum. -/
lemma sorted_getLast?_eq_max? :
    ∀ (l : List ℕ), List.Pairwise (fun a b => a ≤ b) l → l.getLast? = l.max?
  | [], _ => rfl
  | [a], _ => by simp [List.max?_cons]
  | a :: b :: t, hs => by
      obtain ⟨ha, ht⟩ := List.pairwise_cons.mp hs
      rw [List.getLast?_cons_cons, sorted_getLast?_eq_max? (b :: t) ht]
      cases hm : (b :: t).max? with
      | none => simp [List.max?_eq_none_iff] at hm
      | some m =>
          have hmem : m ∈ b :: t := List.max?_mem (fun a b => max_choice a b) hm
          have ham : a ≤ m := ha m hmem
          rw [List.max?_cons, hm]
          simp [max_eq_right ham]

/-- `sortedKeys` is ascending. -/
lemma sortedKeys_pairwise (wps : List (ℕ × GeoPt)) :
    List.Pairwise (fun a b => a ≤ b) (sortedKeys wps) := by
  have h := @List.sorted_mergeSort ℕ (fun a b : ℕ => decide (a ≤ b))
    (fun a b c hab hbc => by
      simp only [decide_eq_true_eq] at *
      omega)
    (fun a b => by
      rcases Nat.le_total a b with h | h <;> simp [h])
    (wps.map Prod.fst)
  exact h.imp (fun hab => by simpa using hab)

/-- `sortedKeys` is a permutation of the key multiset. -/
lemma sortedKeys_perm (wps : List (ℕ × GeoPt)) :
    (sortedKeys wps).Perm (wps.map Prod.fst) :=
  List.mergeSort_perm (wps.map Prod.fst) (fun a b => decide (a ≤ b))

/-- `_update_current_next_waypoints` realises the specification's
`currentWaypointSeq` value on any nonempty mission. -/
lemma updateCurrentNext_eq_spec (s : VehicleMission)
    (hne : s.missionWaypoints ≠ []) :
    (updateCurrentNextWaypoints s).currentWaypointSeq =
      specCurrentSeq (s.missionWaypoints.map Prod.fst) s.visitedWaypoints := by
  rw [updateCurrentNextWaypoints, if_neg hne]
  have hsorted := sortedKeys_pairwise s.missionWaypoints
  have hperm := sortedKeys_perm s.missionWaypoints
  have hfind := sorted_find?_eq_min?_filter
    (fun k => !(decide (k ∈ s.visitedWaypoints))) (sortedKeys s.missionWaypoints)
    hsorted
  have hfilt : ((sortedKeys s.missionWaypoints).filter
      (fun k => !(decide (k ∈ s.visitedWaypoints)))).min? =
      ((s.missionWaypoints.map Prod.fst).filter
        (fun k => !(decide (k ∈ s.visitedWaypoints)))).min? :=
    perm_min?_eq (hperm.filter _)
  rw [specCurrentSeq]
  cases hm : ((s.missionWaypoints.map Prod.fst).filter
      (fun k => !(decide (k ∈ s.visitedWaypoints)))).min? with
  | some m =>
      have : (sortedKeys s.missionWaypoints).find?
          (fun k => !(decide (k ∈ s.visitedWaypoints))) = some m := by
        rw [hfind, hfilt, hm]
      simp only [this]
  | none =>
      have hfn : (sortedKeys s.missionWaypoints).find?
          (fun k => !(decide (k ∈ s.visitedWaypoints))) = none := by
        rw [hfind, hfilt, hm]
      simp only [hfn]
      have hmax : (sortedKeys s.missionWaypoints).getLast? =
          (s.missionWaypoints.map Prod.fst).max? := by
        rw [sorted_getLast?_eq_max? _ hsorted]
        exact perm_max?_eq hperm
      cases hml : (s.missionWaypoints.map Prod.fst).max? with
      | none =>
          rw [List.max?_eq_none_iff] at hml
          exact absurd (List.map_eq_nil_iff.mp hml) hne
      | some mx =>
          rw [hml] at hmax
          simp [hmax]
/-! ## Claim C3: the mission-pointer invariant -/

/-- Field preservation: `_update_current_next_waypoints` only writes the
current/next pointers. -/
lemma updateCurrentNext_missionWaypoints (s : VehicleMission) :
    (updateCurrentNextWaypoints s).missionWaypoints = s.missionWaypoints := by
  rw [updateCurrentNextWaypoints]
  split <;> rfl

lemma updateCurrentNext_visitedWaypoints (s : VehicleMission) :
    (updateCurrentNextWaypoints s).visitedWaypoints = s.visitedWaypoints := by
  rw [updateCurrentNextWaypoints]
  split <;> rfl

lemma updateCurrentNext_visitCandidates (s : VehicleMission) :
    (updateCurrentNextWaypoints s).visitCandidates = s.visitCandidates := by
  rw [updateCurrentNextWaypoints]
  split <;> rfl

/-- The claim C3 invariant, relative to the connected mission `wps`: the
mission map is `wps`, every visited sequence is a mission key, and on a
nonempty mission the current pointer equals the specification value. -/
def MissionInv (wps : List (ℕ × GeoPt)) (s : VehicleMission) : Prop :=
  s.missionWaypoints = wps ∧
  (∀ k ∈ s.visitedWaypoints, k ∈ wps.map Prod.fst) ∧
  (wps ≠ [] →
    s.currentWaypointSeq = specCurrentSeq (wps.map Prod.fst) s.visitedWaypoints)

/-- One per-waypoint visit check preserves the invariant (the checked
waypoint comes from the mission map). -/
lemma checkOneWaypoint_preserves (dist : GeoPt → GeoPt → ℚ) (p : GeoPt)
    (t : ℚ) {wps : List (ℕ × GeoPt)} {s : VehicleMission} (wpc : ℕ × GeoPt)
    (hmem : wpc ∈ wps) (hinv : MissionInv wps s) :
    MissionInv wps (checkOneWaypoint dist p t s wpc) := by
  obtain ⟨hwps, hsub, hcur⟩ := hinv
  rw [checkOneWaypoint]
  by_cases hv : wpc.1 ∈ s.visitedWaypoints
  · rw [if_pos hv]
    exact ⟨hwps, hsub, hcur⟩
  · rw [if_neg hv]
    dsimp only
    by_cases hd : dist p wpc.2 ≤ WAYPOINT_VISIT_THRESHOLD
    · rw [if_pos hd]
      split
      · exact ⟨hwps, hsub, hcur⟩
      · split
        · refine ⟨?_, ?_, ?_⟩
          · rw [markWaypointVisited, updateCurrentNext_missionWaypoints]
            exact hwps
          · intro k hk
            rw [markWaypointVisited,
              updateCurrentNext_visitedWaypoints] at hk
            rcases Finset.mem_insert.mp hk with h | h
            · subst h
              exact List.mem_map_of_mem Prod.fst hmem
            · exact hsub k h
          · intro hne
            have hne' : (VehicleMission.mk s.missionWaypoints
                (insert wpc.1 s.visitedWaypoints) s.currentWaypointSeq
                s.nextWaypointSeq s.visitCandidates).missionWaypoints ≠ [] := by
              simpa [hwps] using hne
            rw [markWaypointVisited, updateCurrentNext_visitedWaypoints,
              updateCurrentNext_eq_spec _ hne']
            simp [hwps]
        · exact ⟨hwps, hsub, hcur⟩
    · rw [if_neg hd]
      exact ⟨hwps, hsub, hcur⟩
/-- Folding the per-waypoint check over mission items preserves the
invariant. -/
lemma foldl_checkOneWaypoint_preserves (dist : GeoPt → GeoPt → ℚ) (p : GeoPt)
    (t : ℚ) {wps : List (ℕ × GeoPt)} :
    ∀ (l : List (ℕ × GeoPt)) (s : VehicleMission), (∀ x ∈ l, x ∈ wps) →
      MissionInv wps s →
      MissionInv wps (l.foldl (checkOneWaypoint dist p t) s)
  | [], _, _, hinv => hinv
  | x :: xs, s, hl, hinv => by
      rw [List.foldl_cons]
      exact foldl_checkOneWaypoint_preserves dist p t xs _
        (fun y hy => hl y (List.mem_cons_of_mem x hy))
        (checkOneWaypoint_preserves dist p t x (hl x (List.mem_cons_self x xs)) hinv)

/-- A whole position-update visit check preserves the invariant. -/
lemma checkWaypointVisits_preserves (dist : GeoPt → GeoPt → ℚ)
    {wps : List (ℕ × GeoPt)} {s : VehicleMission} (t : ℚ) (pos : Option GeoPt)
    (hinv : MissionInv wps s) :
    MissionInv wps (checkWaypointVisits dist s t pos) := by
  cases pos with
  | none => exact hinv
  | some p =>
      rw [checkWaypointVisits]
      by_cases hne : s.missionWaypoints = []
      · rw [if_pos hne]
        exact hinv
      · rw [if_neg hne]
        exact foldl_checkOneWaypoint_preserves dist p t s.missionWaypoints s
          (fun x hx => hinv.1 ▸ hx) hinv

/-- A sequence of position updates preserves the invariant. -/
lemma foldl_visits_preserves (dist : GeoPt → GeoPt → ℚ)
    {wps : List (ℕ × GeoPt)} :
    ∀ (us : List (ℚ × Option GeoPt)) (s : VehicleMission), MissionInv wps s →
      MissionInv wps
        (us.foldl (fun s u => checkWaypointVisits dist s u.1 u.2) s)
  | [], _, hinv => hinv
  | u :: us, s, hinv => by
      rw [List.foldl_cons]
      exact foldl_visits_preserves dist us _
        (checkWaypointVisits_preserves dist u.1 u.2 hinv)

/-- Claim C3 (amended): starting from a fresh vehicle, after connecting
(which loads the mission map and recomputes the pointers) and any sequence
of position-update visit checks, every visited waypoint is a key of the
mission map and `currentWaypointSeq` equals the lowest unvisited sequence —
or the highest sequence when all are visited.  (An inbound `MISSION_CURRENT`
message instead overwrites `currentWaypointSeq` with the autopilot-reported
value, see the counterexample.) -/
theorem claim_C3_current_waypoint_invariant (dist : GeoPt → GeoPt → ℚ)
    (wps : List (ℕ × GeoPt)) (us : List (ℚ × Option GeoPt)) :
    (∀ k ∈ (us.foldl (fun s u => checkWaypointVisits dist s u.1 u.2)
        (connectUpdate initialVehicleMission wps)).visitedWaypoints,
      k ∈ wps.map Prod.fst) ∧
    (wps ≠ [] →
      (us.foldl (fun s u => checkWaypointVisits dist s u.1 u.2)
        (connectUpdate initialVehicleMission wps)).currentWaypointSeq =
      specCurrentSeq (wps.map Prod.fst)
        (us.foldl (fun s u => checkWaypointVisits dist s u.1 u.2)
          (connectUpdate initialVehicleMission wps)).visitedWaypoints) := by
  have hinv0 : MissionInv wps (connectUpdate initialVehicleMission wps) := by
    refine ⟨?_, ?_, ?_⟩
    · rw [connectUpdate, updateCurrentNext_missionWaypoints]
    · intro k hk
      rw [connectUpdate, updateCurrentNext_visitedWaypoints] at hk
      simp [initialVehicleMission] at hk
    · intro hne
      rw [connectUpdate, updateCurrentNext_eq_spec _ (by simpa using hne),
        updateCurrentNext_visitedWaypoints]
  have hinv := foldl_visits_preserves dist us _ hinv0
  exact ⟨hinv.2.1, hinv.2.2⟩
/-- Distance oracle for the claim C3 witness. -/
def c3Dist : GeoPt → GeoPt → ℚ := fun _ _ => 0

/-- A three-waypoint mission map for claim C3. -/
def c3Wps : List (ℕ × GeoPt) :=
  [(0, { lat := 1, lon := 36 }), (1, { lat := 2, lon := 36 }),
   (2, { lat := 3, lon := 36 })]

/-- One position update for the claim C3 witness. -/
def c3Us : List (ℚ × Option GeoPt) := [(100, some { lat := 1, lon := 36 })]

/-- Witness for claim C3 on the concrete three-waypoint mission. -/
theorem claim_C3_witness :
    c3Wps ≠ [] ∧
    ((∀ k ∈ (c3Us.foldl (fun s u => checkWaypointVisits c3Dist s u.1 u.2)
        (connectUpdate initialVehicleMission c3Wps)).visitedWaypoints,
      k ∈ c3Wps.map Prod.fst) ∧
     (c3Us.foldl (fun s u => checkWaypointVisits c3Dist s u.1 u.2)
        (connectUpdate initialVehicleMission c3Wps)).currentWaypointSeq =
      specCurrentSeq (c3Wps.map Prod.fst)
        (c3Us.foldl (fun s u => checkWaypointVisits c3Dist s u.1 u.2)
          (connectUpdate initialVehicleMission c3Wps)).visitedWaypoints) :=
  ⟨by decide,
    ⟨(claim_C3_current_waypoint_invariant c3Dist c3Wps c3Us).1,
      (claim_C3_current_waypoint_invariant c3Dist c3Wps c3Us).2 (by decide)⟩⟩

/-- Counterexample to claim C3 as stated: after connecting the three-waypoint
mission (nothing visited, lowest unvisited sequence `0`), an inbound
`MISSION_CURRENT` message reporting sequence `2` sets `currentWaypointSeq` to
`2`, which is not the lowest unvisited sequence. -/
theorem claim_C3_counterexample :
    (missionCurrentUpdate (connectUpdate initialVehicleMission c3Wps)
        2).currentWaypointSeq = some 2 ∧
    specCurrentSeq (c3Wps.map Prod.fst)
      (missionCurrentUpdate (connectUpdate initialVehicleMission c3Wps)
        2).visitedWaypoints = some 0 ∧
    some (2 : ℕ) ≠ some 0 := by
  refine ⟨?_, ?_, by decide⟩ <;> decide
/-! ## Claim C6: waypoint-visit debouncing

The per-waypoint effect of `_check_waypoint_visits` is characterised through
a view of the tracked waypoint's state (visited flag, candidate-timer start)
and an abstract step function `debounceStep`. -/

lemma candLookup_candSet_self (cands : List (ℕ × ℚ)) (wp : ℕ) (t : ℚ) :
    candLookup (candSet cands wp t) wp = some t := by
  induction cands with
  | nil => simp [candSet, candLookup]
  | cons c rest ih =>
      by_cases hc : c.1 = wp
      · simp [candSet, hc, candLookup]
      · simp [candSet, hc, candLookup, ih]

lemma candLookup_candSet_ne (cands : List (ℕ × ℚ)) (k wp : ℕ) (t : ℚ)
    (hne : k ≠ wp) :
    candLookup (candSet cands k t) wp = candLookup cands wp := by
  induction cands with
  | nil => simp [candSet, candLookup, hne]
  | cons c rest ih =>
      by_cases hc : c.1 = k
      · have hcw : ¬c.1 = wp := by rw [hc]; exact hne
        simp [candSet, hc, candLookup, hne, hcw]
      · by_cases hcw : c.1 = wp
        · simp [candSet, hc, candLookup, hcw, Ne.symm hne]
        · simp [candSet, hc, candLookup, hcw, ih]

lemma candLookup_candErase_self (cands : List (ℕ × ℚ)) (wp : ℕ) :
    candLookup (candErase cands wp) wp = none := by
  induction cands with
  | nil => simp [candErase, candLookup]
  | cons c rest ih =>
      by_cases hc : c.1 = wp
      · simp [candErase, hc, ih]
      · simp [candErase, hc, candLookup, ih]

lemma candLookup_candErase_ne (cands : List (ℕ × ℚ)) (k wp : ℕ)
    (hne : k ≠ wp) :
    candLookup (candErase cands k) wp = candLookup cands wp := by
  induction cands with
  | nil => simp [candErase, candLookup]
  | cons c rest ih =>
      by_cases hc : c.1 = k
      · have hcw : ¬c.1 = wp := by rw [hc]; exact hne
        simp [candErase, hc, candLookup, hcw, hne, ih]
      · by_cases hcw : c.1 = wp
        · simp [candErase, hc, candLookup, hcw, Ne.symm hne]
        · simp [candErase, hc, candLookup, hcw, ih]

lemma markWaypointVisited_missionWaypoints (s : VehicleMission) (wp : ℕ) :
    (markWaypointVisited s wp).missionWaypoints = s.missionWaypoints := by
  rw [markWaypointVisited, updateCurrentNext_missionWaypoints]

lemma markWaypointVisited_visited (s : VehicleMission) (wp : ℕ) :
    (markWaypointVisited s wp).visitedWaypoints =
      insert wp s.visitedWaypoints := by
  rw [markWaypointVisited, updateCurrentNext_visitedWaypoints]

lemma markWaypointVisited_cands (s : VehicleMission) (wp : ℕ) :
    (markWaypointVisited s wp).visitCandidates = s.visitCandidates := by
  rw [markWaypointVisited, updateCurrentNext_visitCandidates]

lemma checkOneWaypoint_missionWaypoints (dist : GeoPt → GeoPt → ℚ)
    (p : GeoPt) (t : ℚ) (s : VehicleMission) (x : ℕ × GeoPt) :
    (checkOneWaypoint dist p t s x).missionWaypoints = s.missionWaypoints := by
  rw [checkOneWaypoint]
  split
  · rfl
  · dsimp only
    split
    · split
      · rfl
      · split
        · exact markWaypointVisited_missionWaypoints s x.1
        · rfl
    · rfl
/-- The tracked waypoint's view of the vehicle state: whether it is visited,
and its candidate-timer start time, if any. -/
def wpView (s : VehicleMission) (wp : ℕ) : Bool × Option ℚ :=
  (decide (wp ∈ s.visitedWaypoints), candLookup s.visitCandidates wp)

/-- Abstract per-update transition of one waypoint's debounce state, read
off lines 917-950: a visited waypoint stays visited; within threshold the
candidate timer is started, kept, or — once it has run at least the
confirmation delay — converted into a visit; outside the threshold the
timer is dropped. -/
def debounceStep (within : Bool) (t : ℚ) : Bool × Option ℚ → Bool × Option ℚ
  | (true, c) => (true, c)
  | (false, c) =>
      if within = true then
        match c with
        | none => (false, some t)
        | some t0 =>
            if t - t0 ≥ WAYPOINT_CONFIRMATION_DELAY then (true, none)
            else (false, some t0)
      else (false, none)

/-- Checking a different waypoint leaves the tracked waypoint's view
unchanged. -/
lemma checkOneWaypoint_wpView_ne (dist : GeoPt → GeoPt → ℚ) (p : GeoPt)
    (t : ℚ) (s : VehicleMission) (x : ℕ × GeoPt) (wp : ℕ) (hne : x.1 ≠ wp) :
    wpView (checkOneWaypoint dist p t s x) wp = wpView s wp := by
  rw [checkOneWaypoint]
  split
  · rfl
  · dsimp only
    split
    · split
      · simp [wpView, candLookup_candSet_ne _ _ _ _ hne]
      · split
        · have hwx : ¬wp = x.1 := fun h => hne h.symm
          simp [wpView, markWaypointVisited_visited, markWaypointVisited_cands,
            candLookup_candErase_ne _ _ _ hne, Finset.mem_insert, hwx]
        · rfl
    · simp [wpView, candLookup_candErase_ne _ _ _ hne]
/-- Checking the tracked waypoint itself realises `debounceStep` on its
view. -/
lemma checkOneWaypoint_wpView_self (dist : GeoPt → GeoPt → ℚ) (p : GeoPt)
    (t : ℚ) (s : VehicleMission) (wp : ℕ) (coord : GeoPt) :
    wpView (checkOneWaypoint dist p t s (wp, coord)) wp =
      debounceStep (decide (dist p coord ≤ WAYPOINT_VISIT_THRESHOLD)) t
        (wpView s wp) := by
  by_cases hv : wp ∈ s.visitedWaypoints
  · have hview : wpView s wp = (true, candLookup s.visitCandidates wp) := by
      simp [wpView, hv]
    rw [checkOneWaypoint, if_pos hv, hview]
    simp [debounceStep]
  · have hview : wpView s wp = (false, candLookup s.visitCandidates wp) := by
      simp [wpView, hv]
    rw [checkOneWaypoint, if_neg hv]
    dsimp only
    by_cases hd : dist p coord ≤ WAYPOINT_VISIT_THRESHOLD
    · rw [if_pos hd]
      split
      · next hc =>
          rw [hview, hc]
          simp [debounceStep, wpView, hv, candLookup_candSet_self, hd]
      · next t0 hc =>
          by_cases hdel : t - t0 ≥ WAYPOINT_CONFIRMATION_DELAY
          · rw [if_pos hdel, hview, hc]
            simp [debounceStep, wpView, markWaypointVisited_visited,
              markWaypointVisited_cands, candLookup_candErase_self, hd, hdel]
          · rw [if_neg hdel, hview, hc]
            simp [debounceStep, wpView, hv, hc, hd, hdel]
    · rw [if_neg hd, hview]
      simp [debounceStep, wpView, hv, candLookup_candErase_self, hd]
/-- Folding the per-waypoint check over waypoints other than the tracked one
leaves its view unchanged. -/
lemma foldl_wpView_ne (dist : GeoPt → GeoPt → ℚ) (p : GeoPt) (t : ℚ) (wp : ℕ) :
    ∀ (l : List (ℕ × GeoPt)) (s : VehicleMission), (∀ x ∈ l, x.1 ≠ wp) →
      wpView (l.foldl (checkOneWaypoint dist p t) s) wp = wpView s wp
  | [], _, _ => rfl
  | x :: xs, s, hl => by
      rw [List.foldl_cons, foldl_wpView_ne dist p t wp xs _
        (fun y hy => hl y (List.mem_cons_of_mem x hy)),
        checkOneWaypoint_wpView_ne dist p t s x wp (hl x (List.mem_cons_self x xs))]

/-- One position update realises `debounceStep` on the tracked waypoint's
view, provided the waypoint occurs in the mission map and keys are
distinct (mission maps are Python dicts, so keys are unique). -/
lemma checkWaypointVisits_wpView (dist : GeoPt → GeoPt → ℚ)
    (s : VehicleMission) (t : ℚ) (p : GeoPt) (wp : ℕ) (coord : GeoPt)
    (hmem : (wp, coord) ∈ s.missionWaypoints)
    (hnd : (s.missionWaypoints.map Prod.fst).Nodup) :
    wpView (checkWaypointVisits dist s t (some p)) wp =
      debounceStep (decide (dist p coord ≤ WAYPOINT_VISIT_THRESHOLD)) t
        (wpView s wp) := by
  obtain ⟨l₁, l₂, hsplit⟩ := List.append_of_mem hmem
  have hne : s.missionWaypoints ≠ [] := by
    rw [hsplit]
    exact List.append_ne_nil_of_right_ne_nil l₁ (List.cons_ne_nil _ _)
  rw [checkWaypointVisits, if_neg hne, hsplit, List.foldl_append, List.foldl_cons]
  have hnd' := hnd
  rw [hsplit, List.map_append, List.map_cons] at hnd'
  have hwp1 : ∀ x ∈ l₁, x.1 ≠ wp := by
    intro x hx hxw
    have : wp ∈ l₁.map Prod.fst := hxw ▸ List.mem_map_of_mem Prod.fst hx
    have hdisj := (List.nodup_append.mp hnd').2.2
    exact hdisj this (List.mem_cons_self wp _)
  have hwp2 : ∀ x ∈ l₂, x.1 ≠ wp := by
    intro x hx hxw
    have hmem2 : wp ∈ l₂.map Prod.fst := hxw ▸ List.mem_map_of_mem Prod.fst hx
    have hcons := (List.nodup_append.mp hnd').2.1
    exact (List.nodup_cons.mp hcons).1 hmem2
  rw [foldl_wpView_ne dist p t wp l₂ _ hwp2,
    checkOneWaypoint_wpView_self dist p t _ wp coord,
    foldl_wpView_ne dist p t wp l₁ s hwp1]

/-- `checkWaypointVisits` never changes the mission map. -/
lemma checkWaypointVisits_missionWaypoints (dist : GeoPt → GeoPt → ℚ)
    (s : VehicleMission) (t : ℚ) (pos : Option GeoPt) :
    (checkWaypointVisits dist s t pos).missionWaypoints = s.missionWaypoints := by
  cases pos with
  | none => rfl
  | some p =>
      rw [checkWaypointVisits]
      by_cases hne : s.missionWaypoints = []
      · rw [if_pos hne]
      · rw [if_neg hne]
        have : ∀ (l : List (ℕ × GeoPt)) (s' : VehicleMission),
            (l.foldl (checkOneWaypoint dist p t) s').missionWaypoints =
              s'.missionWaypoints := by
          intro l
          induction l with
          | nil => intro s'; rfl
          | cons x xs ih =>
              intro s'
              rw [List.foldl_cons, ih, checkOneWaypoint_missionWaypoints]
        exact this s.missionWaypoints s
/-- A sequence of position updates realises the fold of `debounceStep` over
the tracked waypoint's view. -/
lemma foldl_updates_wpView (dist : GeoPt → GeoPt → ℚ) (wp : ℕ) (coord : GeoPt) :
    ∀ (us : List (ℚ × GeoPt)) (s : VehicleMission),
      (wp, coord) ∈ s.missionWaypoints →
      (s.missionWaypoints.map Prod.fst).Nodup →
      wpView (us.foldl (fun s u => checkWaypointVisits dist s u.1 (some u.2)) s)
          wp =
        us.foldl (fun v u =>
          debounceStep (decide (dist u.2 coord ≤ WAYPOINT_VISIT_THRESHOLD)) u.1 v)
          (wpView s wp)
  | [], _, _, _ => rfl
  | u :: us, s, hmem, hnd => by
      rw [List.foldl_cons, List.foldl_cons,
        ← checkWaypointVisits_wpView dist s u.1 u.2 wp coord hmem hnd]
      exact foldl_updates_wpView dist wp coord us _
        (by rw [checkWaypointVisits_missionWaypoints]; exact hmem)
        (by rw [checkWaypointVisits_missionWaypoints]; exact hnd)

/-- Once visited, the debounce fold keeps the waypoint visited. -/
lemma debounce_foldl_true (dist : GeoPt → GeoPt → ℚ) (coord : GeoPt)
    (c : Option ℚ) :
    ∀ (us : List (ℚ × GeoPt)),
      us.foldl (fun v u =>
        debounceStep (decide (dist u.2 coord ≤ WAYPOINT_VISIT_THRESHOLD)) u.1 v)
        (true, c) = (true, c)
  | [] => rfl
  | u :: us => by
      rw [List.foldl_cons]
      have : debounceStep (decide (dist u.2 coord ≤ WAYPOINT_VISIT_THRESHOLD))
          u.1 (true, c) = (true, c) := rfl
      rw [this, debounce_foldl_true dist coord c us]

/-- While every update stays within threshold for less than the confirmation
delay after the candidate start `t0`, the debounce fold keeps the candidate
and does not mark the waypoint visited. -/
lemma debounce_foldl_no_trigger (dist : GeoPt → GeoPt → ℚ) (coord : GeoPt)
    (t0 : ℚ) :
    ∀ (us : List (ℚ × GeoPt)),
      (∀ u ∈ us, dist u.2 coord ≤ WAYPOINT_VISIT_THRESHOLD) →
      (∀ u ∈ us, u.1 - t0 < WAYPOINT_CONFIRMATION_DELAY) →
      us.foldl (fun v u =>
        debounceStep (decide (dist u.2 coord ≤ WAYPOINT_VISIT_THRESHOLD)) u.1 v)
        (false, some t0) = (false, some t0)
  | [], _, _ => rfl
  | u :: us, hin, hno => by
      rw [List.foldl_cons]
      have hd : dist u.2 coord ≤ WAYPOINT_VISIT_THRESHOLD :=
        hin u (List.mem_cons_self u us)
      have hlt : u.1 - t0 < WAYPOINT_CONFIRMATION_DELAY :=
        hno u (List.mem_cons_self u us)
      have hstep : debounceStep
          (decide (dist u.2 coord ≤ WAYPOINT_VISIT_THRESHOLD)) u.1
          (false, some t0) = (false, some t0) := by
        simp [debounceStep, hd, not_le.mpr hlt]
      rw [hstep]
      exact debounce_foldl_no_trigger dist coord t0 us
        (fun v hv => hin v (List.mem_cons_of_mem u hv))
        (fun v hv => hno v (List.mem_cons_of_mem u hv))

/-- As soon as some within-threshold update arrives at least the confirmation
delay after the candidate start `t0`, the debounce fold marks the waypoint
visited. -/
lemma debounce_foldl_trigger (dist : GeoPt → GeoPt → ℚ) (coord : GeoPt)
    (t0 : ℚ) :
    ∀ (us : List (ℚ × GeoPt)),
      (∀ u ∈ us, dist u.2 coord ≤ WAYPOINT_VISIT_THRESHOLD) →
      (∃ u ∈ us, u.1 - t0 ≥ WAYPOINT_CONFIRMATION_DELAY) →
      (us.foldl (fun v u =>
        debounceStep (decide (dist u.2 coord ≤ WAYPOINT_VISIT_THRESHOLD)) u.1 v)
        (false, some t0)).1 = true
  | [], _, hex => by simp at hex
  | u :: us, hin, hex => by
      rw [List.foldl_cons]
      have hd : dist u.2 coord ≤ WAYPOINT_VISIT_THRESHOLD :=
        hin u (List.mem_cons_self u us)
      by_cases hu : u.1 - t0 ≥ WAYPOINT_CONFIRMATION_DELAY
      · have hstep : debounceStep
            (decide (dist u.2 coord ≤ WAYPOINT_VISIT_THRESHOLD)) u.1
            (false, some t0) = (true, none) := by
          simp [debounceStep, hd, hu]
        rw [hstep, debounce_foldl_true]
      · have hstep : debounceStep
            (decide (dist u.2 coord ≤ WAYPOINT_VISIT_THRESHOLD)) u.1
            (false, some t0) = (false, some t0) := by
          simp [debounceStep, hd, hu]
        rw [hstep]
        rcases hex with ⟨v, hv, htrig⟩
        rcases List.mem_cons.mp hv with h | h
        · exact absurd (h ▸ htrig) hu
        · exact debounce_foldl_trigger dist coord t0 us
            (fun w hw => hin w (List.mem_cons_of_mem u hw)) ⟨v, h, htrig⟩
/-- Claim C6: for an unvisited mission waypoint with no running candidate
timer, a run of updates all within the 3 m visit threshold marks the
waypoint visited exactly when some later update arrives at least the 2 s
confirmation delay after the first one: staying within threshold for less
than the delay does NOT mark it visited, sustaining it past the delay does;
and an update outside the threshold resets (drops) the candidate timer
without marking the waypoint visited. -/
theorem claim_C6_visit_debounce (dist : GeoPt → GeoPt → ℚ)
    (s : VehicleMission) (wp : ℕ) (coord : GeoPt) (t0 : ℚ) (p0 : GeoPt)
    (rest : List (ℚ × GeoPt))
    (hmem : (wp, coord) ∈ s.missionWaypoints)
    (hnd : (s.missionWaypoints.map Prod.fst).Nodup)
    (hunv : wp ∉ s.visitedWaypoints)
    (hcand : candLookup s.visitCandidates wp = none)
    (hin : ∀ u ∈ (t0, p0) :: rest, dist u.2 coord ≤ WAYPOINT_VISIT_THRESHOLD) :
    ((∀ u ∈ rest, u.1 - t0 < WAYPOINT_CONFIRMATION_DELAY) →
      wp ∉ (((t0, p0) :: rest).foldl
        (fun s u => checkWaypointVisits dist s u.1 (some u.2)) s).visitedWaypoints) ∧
    ((∃ u ∈ rest, u.1 - t0 ≥ WAYPOINT_CONFIRMATION_DELAY) →
      wp ∈ (((t0, p0) :: rest).foldl
        (fun s u => checkWaypointVisits dist s u.1 (some u.2)) s).visitedWaypoints) ∧
    (∀ (s' : VehicleMission) (t' : ℚ) (p' : GeoPt),
      (wp, coord) ∈ s'.missionWaypoints →
      (s'.missionWaypoints.map Prod.fst).Nodup →
      wp ∉ s'.visitedWaypoints →
      WAYPOINT_VISIT_THRESHOLD < dist p' coord →
      (wp ∉ (checkWaypointVisits dist s' t' (some p')).visitedWaypoints ∧
        candLookup (checkWaypointVisits dist s' t' (some p')).visitCandidates wp
          = none)) := by
  have hview0 : wpView s wp = (false, none) := by
    simp [wpView, hunv, hcand]
  have hfold := foldl_updates_wpView dist wp coord ((t0, p0) :: rest) s hmem hnd
  have hd0 : dist p0 coord ≤ WAYPOINT_VISIT_THRESHOLD :=
    hin (t0, p0) (List.mem_cons_self _ _)
  have hhead : debounceStep (decide (dist p0 coord ≤ WAYPOINT_VISIT_THRESHOLD))
      t0 (false, none) = (false, some t0) := by
    simp [debounceStep, hd0]
  have hrhs : ((t0, p0) :: rest).foldl (fun v u =>
      debounceStep (decide (dist u.2 coord ≤ WAYPOINT_VISIT_THRESHOLD)) u.1 v)
      (false, none) =
      rest.foldl (fun v u =>
        debounceStep (decide (dist u.2 coord ≤ WAYPOINT_VISIT_THRESHOLD)) u.1 v)
        (false, some t0) := by
    rw [List.foldl_cons]
    dsimp only
    rw [hhead]
  rw [hview0, hrhs] at hfold
  refine ⟨?_, ?_, ?_⟩
  · intro hno
    rw [debounce_foldl_no_trigger dist coord t0 rest
      (fun u hu => hin u (List.mem_cons_of_mem _ hu)) hno] at hfold
    have h1 := congrArg Prod.fst hfold
    simp [wpView] at h1
    exact h1
  · intro hex
    have htr := debounce_foldl_trigger dist coord t0 rest
      (fun u hu => hin u (List.mem_cons_of_mem _ hu)) hex
    have h1 := congrArg Prod.fst hfold
    rw [htr] at h1
    simp [wpView] at h1
    exact h1
  · intro s' t' p' hmem' hnd' hunv' hfar
    have hv' := checkWaypointVisits_wpView dist s' t' p' wp coord hmem' hnd'
    have hview' : wpView s' wp = (false, candLookup s'.visitCandidates wp) := by
      simp [wpView, hunv']
    rw [hview'] at hv'
    have hstep : debounceStep (decide (dist p' coord ≤ WAYPOINT_VISIT_THRESHOLD))
        t' (false, candLookup s'.visitCandidates wp) = (false, none) := by
      simp [debounceStep, not_le.mpr hfar]
    rw [hstep] at hv'
    have h1 := congrArg Prod.fst hv'
    have h2 := congrArg Prod.snd hv'
    simp [wpView] at h1 h2
    exact ⟨h1, h2⟩
/-- Distance oracle for the claim C6 witness: zero at equal latitudes, 10 m
otherwise. -/
def c6Dist : GeoPt → GeoPt → ℚ := fun p q => if p.lat = q.lat then 0 else 10

/-- Tracked waypoint position for the claim C6 witness. -/
def c6A : GeoPt := { lat := 1, lon := 36 }

/-- Second mission waypoint for the claim C6 witness. -/
def c6B : GeoPt := { lat := 2, lon := 36 }

/-- An out-of-threshold position for the claim C6 witness. -/
def c6Far : GeoPt := { lat := 5, lon := 36 }

/-- Two-waypoint vehicle state for the claim C6 witness. -/
def c6State : VehicleMission :=
  { missionWaypoints := [(0, c6A), (1, c6B)]
    visitedWaypoints := ∅
    currentWaypointSeq := some 0
    nextWaypointSeq := some 1
    visitCandidates := [] }

/-- Witness for claim C6: three updates at waypoint 0 (times 100, 101, 103)
confirm the visit (103 − 100 ≥ 2 s), while a single far update leaves the
waypoint unvisited with no candidate timer. -/
theorem claim_C6_witness :
    (0 : ℕ) ∈ (([((100 : ℚ), c6A), (101, c6A), (103, c6A)]).foldl
      (fun s u => checkWaypointVisits c6Dist s u.1 (some u.2))
      c6State).visitedWaypoints ∧
    ((0 : ℕ) ∉ (checkWaypointVisits c6Dist c6State 100
        (some c6Far)).visitedWaypoints ∧
      candLookup (checkWaypointVisits c6Dist c6State 100
        (some c6Far)).visitCandidates 0 = none) := by
  obtain ⟨h1, h2, h3⟩ := claim_C6_visit_debounce c6Dist c6State 0 c6A 100 c6A
    [(101, c6A), (103, c6A)] (by decide) (by decide) (by decide) (by decide)
    (by decide)
  exact ⟨h2 ⟨(103, c6A), by decide, by norm_num [WAYPOINT_CONFIRMATION_DELAY]⟩,
    h3 c6State 100 c6Far (by decide) (by decide) (by decide) (by decide)⟩
/-! ## Claim C4: the mission-upload handshake
(`Vehicle.upload_mission`, lines 615-729, and `Vehicle.clear_mission`,
lines 569-600)

The wire is modelled as a list of polls: each `recv_match(...,
blocking=False, timeout=1)` call consumes one entry, which is `none` (no
matching message within this poll) or a message.  `recv_match`'s type filter
drops messages of other types, so a poll whose entry is of the wrong type
returns nothing for that poll. -/

inductive MavMsg
  | missionRequest (seq : ℕ)
  | missionAck (accepted : Bool)
deriving Repr, DecidableEq

/-- Shared ack-wait loop shape of `clear_mission` (lines 583-596, 5 polls)
and the final ack wait of `upload_mission` (lines 709-725, 10 polls): an
accepted ack returns true, any other ack code returns false, running out of
polls returns false. -/
def waitMissionAck : ℕ → List (Option MavMsg) → Bool × List (Option MavMsg)
  | 0, msgs => (false, msgs)
  | fuel + 1, msgs =>
      match msgs with
      | [] => (false, [])
      | m :: rest =>
          match m with
          | some (.missionAck true) => (true, rest)
          | some (.missionAck false) => (false, rest)
          | some (.missionRequest _) => waitMissionAck fuel rest
          | none => waitMissionAck fuel rest

/-- Per-item request wait (lines 675-684, 10 polls): a `MISSION_REQUEST`
whose sequence equals the expected index breaks the wait; a request with any
other index is consumed and ignored (the loop keeps polling); running out of
polls aborts. -/
def waitMissionRequest (i : ℕ) : ℕ → List (Option MavMsg) →
    Bool × List (Option MavMsg)
  | 0, msgs => (false, msgs)
  | fuel + 1, msgs =>
      match msgs with
      | [] => (false, [])
      | m :: rest =>
          match m with
          | some (.missionRequest seq) =>
              if seq = i then (true, rest)
              else waitMissionRequest i fuel rest
          | some (.missionAck _) => waitMissionRequest i fuel rest
          | none => waitMissionRequest i fuel rest

/-- The per-waypoint upload loop (lines 673-706): wait for the request for
index `i`, then send item `i` (recorded in the returned list), and continue
with `i + 1`.  A request timeout aborts the whole upload. -/
def uploadItemsLoop : List Waypoint → ℕ → List (Option MavMsg) →
    Bool × List (Option MavMsg) × List ℕ
  | [], _, msgs => (true, msgs, [])
  | _wp :: rest, i, msgs =>
      let r := waitMissionRequest i 10 msgs
      if r.1 = false then (false, r.2, [])
      else
        let rr := uploadItemsLoop rest (i + 1) r.2
        (rr.1, rr.2.1, i :: rr.2.2)

/-- The `Vehicle` state `upload_mission` touches: the local waypoint cache,
the survey-completion flag and the recorded last-survey-waypoint
sequence. -/
structure UploadVehicleState where
  missionWaypoints : List (ℕ × GeoPt)
  surveyMissionComplete : Bool
  lastWaypointSeq : ℤ
deriving Repr, DecidableEq

/-- Lines 647-658: reset to `-1`, then the sequence of the last waypoint
whose command is neither RTL nor LAND. -/
def computeLastWaypointSeq (wps : List Waypoint) : ℤ :=
  match wps.reverse.find? (fun wp =>
      !(wp.command == MAV_CMD_NAV_RETURN_TO_LAUNCH ||
        wp.command == MAV_CMD_NAV_LAND)) with
  | some wp => (wp.seq : ℤ)
  | none => -1

/-- `Vehicle.upload_mission` (lines 615-729): reject an empty list; clear
the existing mission (5-poll ack wait); reset the completion flag and record
the last survey waypoint; send the count; run the per-item request/item
loop; wait for the final ack (10 polls); on success refresh the local cache
from the vehicle (`fetch_mission_waypoints`, modelled by the `fetchResult`
oracle).  Returns (result, final state, item sequences sent in order). -/
def uploadMission (wps : List Waypoint) (msgs : List (Option MavMsg))
    (fetchResult : List (ℕ × GeoPt)) (s : UploadVehicleState) :
    Bool × UploadVehicleState × List ℕ :=
  if wps = [] then (false, s, [])
  else
    let clear := waitMissionAck 5 msgs
    if clear.1 = false then (false, s, [])
    else
      let s1 : UploadVehicleState :=
        { s with surveyMissionComplete := false
                 lastWaypointSeq := computeLastWaypointSeq wps }
      let items := uploadItemsLoop wps 0 clear.2
      if items.1 = false then (false, s1, items.2.2)
      else
        let fin := waitMissionAck 10 items.2.1
        if fin.1 = false then (false, s1, items.2.2)
        else (true, { s1 with missionWaypoints := fetchResult }, items.2.2)

/-- On a fully successful item loop starting at index `i`, the items sent
are exactly `i, i+1, ...`, one per waypoint, in strictly increasing
order. -/
lemma uploadItemsLoop_sent :
    ∀ (l : List Waypoint) (i : ℕ) (msgs : List (Option MavMsg)),
      (uploadItemsLoop l i msgs).1 = true →
      (uploadItemsLoop l i msgs).2.2 = List.range' i l.length
  | [], _, _, _ => rfl
  | wp :: rest, i, msgs, hok => by
      rw [uploadItemsLoop] at hok ⊢
      by_cases hr : (waitMissionRequest i 10 msgs).1 = false
      · rw [if_pos hr] at hok
        exact absurd hok (by simp)
      · rw [if_neg hr] at hok ⊢
        dsimp only at hok ⊢
        rw [List.length_cons, List.range'_succ]
        rw [uploadItemsLoop_sent rest (i + 1) (waitMissionRequest i 10 msgs).2 hok]
/-- Claim C4 (amended): on a successful upload of N waypoints, exactly N
request/item round-trips occur, item `i` being sent only after a request for
exactly index `i`, in strictly increasing order `0..N-1`; a request for a
wrong index is consumed and ignored (only the absence of the correct request
within the per-item poll budget, a missing ack, or a rejection code aborts);
an aborted upload is not retried and leaves the local waypoint cache
untouched — but the survey-completion flag and the recorded
last-survey-waypoint sequence have already been overwritten once the
initial mission clear succeeded. -/
theorem claim_C4_upload_handshake (wps : List Waypoint)
    (msgs : List (Option MavMsg)) (fetchResult : List (ℕ × GeoPt))
    (s : UploadVehicleState) :
    ((uploadMission wps msgs fetchResult s).1 = true →
      (uploadMission wps msgs fetchResult s).2.2 = List.range wps.length) ∧
    ((uploadMission wps msgs fetchResult s).1 = false →
      (uploadMission wps msgs fetchResult s).2.1.missionWaypoints =
        s.missionWaypoints) ∧
    ((uploadMission wps msgs fetchResult s).1 = false → wps ≠ [] →
      (waitMissionAck 5 msgs).1 = true →
      ((uploadMission wps msgs fetchResult s).2.1.surveyMissionComplete
          = false ∧
       (uploadMission wps msgs fetchResult s).2.1.lastWaypointSeq =
         computeLastWaypointSeq wps)) := by
  by_cases hw : wps = []
  · simp [uploadMission, hw]
  · by_cases hclear : (waitMissionAck 5 msgs).1 = false
    · simp [uploadMission, hw, hclear]
    · by_cases hitems :
          (uploadItemsLoop wps 0 (waitMissionAck 5 msgs).2).1 = false
      · simp [uploadMission, hw, hclear, hitems]
      · by_cases hfin : (waitMissionAck 10
            (uploadItemsLoop wps 0 (waitMissionAck 5 msgs).2).2.1).1 = false
        · simp [uploadMission, hw, hclear, hitems, hfin]
        · have hsent := uploadItemsLoop_sent wps 0 (waitMissionAck 5 msgs).2
            (by simpa using hitems)
          simp [uploadMission, hw, hclear, hitems, hfin, hsent,
            List.range_eq_range']
/-- One plain waypoint for the claim C4 witness and counterexample. -/
def c4Wp0 : Waypoint :=
  { seq := 0, lat := 1, lon := 36, alt := 30, command := MAV_CMD_NAV_WAYPOINT }

/-- Prior vehicle mission state for claim C4. -/
def c4S : UploadVehicleState :=
  { missionWaypoints := [(0, { lat := 1, lon := 36 })]
    surveyMissionComplete := false
    lastWaypointSeq := 0 }

/-- Refreshed cache returned by the post-upload fetch, for claim C4. -/
def c4Fetch : List (ℕ × GeoPt) := [(0, { lat := 1, lon := 36 })]

/-- A well-behaved poll stream: clear ack, request for index 0, final ack. -/
def c4wMsgs : List (Option MavMsg) :=
  [some (.missionAck true), some (.missionRequest 0), some (.missionAck true)]

/-- A poll stream whose traffic stops after the clear ack, so the item-0
request wait times out. -/
def c4FailMsgs : List (Option MavMsg) := [some (.missionAck true)]

/-- Witness for claim C4: a successful 1-waypoint upload sends exactly item
0, and a timed-out upload leaves the waypoint cache untouched while the
last-survey-waypoint marker was already overwritten. -/
theorem claim_C4_witness :
    (uploadMission [c4Wp0] c4wMsgs c4Fetch c4S).2.2 = List.range 1 ∧
    (uploadMission [c4Wp0] c4FailMsgs c4Fetch c4S).2.1.missionWaypoints =
      c4S.missionWaypoints ∧
    (uploadMission [c4Wp0] c4FailMsgs c4Fetch c4S).2.1.lastWaypointSeq =
      computeLastWaypointSeq [c4Wp0] := by
  obtain ⟨h1, _, _⟩ := claim_C4_upload_handshake [c4Wp0] c4wMsgs c4Fetch c4S
  obtain ⟨_, h2, h3⟩ := claim_C4_upload_handshake [c4Wp0] c4FailMsgs c4Fetch c4S
  exact ⟨h1 (by decide), h2 (by decide),
    (h3 (by decide) (by decide) (by decide)).2⟩

/-- A poll stream containing a wrong-index request (`seq 1`) before the
correct one. -/
def c4xMsgs : List (Option MavMsg) :=
  [some (.missionAck true), some (.missionRequest 1),
   some (.missionRequest 0), some (.missionAck true)]

/-- Counterexample to claim C4 as stated: a wrong-index `MISSION_REQUEST`
does not abort the upload — it is consumed and ignored, and the upload then
completes successfully when the correct request follows. -/
theorem claim_C4_counterexample :
    some (MavMsg.missionRequest 1) ∈ c4xMsgs ∧
    (uploadMission [c4Wp0] c4xMsgs c4Fetch c4S).1 = true := by decide

end OlPejeta
